import Mathlib

/-!
# shadoof: a planar distance field wrapped around a cylindrical shell

A shallow embedding of `wrapcylinder.go` and of the parts of `transform.go` it
uses.  Go's `float64` is idealised as `ℝ`: rounding, infinities, NaN and signed
zeros are outside the model, so every statement below is a statement of real
arithmetic about the formulas the code evaluates.

Fields are the pair (evaluate, bounding box) that the `sdf.SDF2` and `sdf.SDF3`
interfaces expose.  The pieces of the sdfx dependency that the code calls
(`Cylinder3D`, the translation transform, `PolyMax`, `Box2D`) are not among the
sources of this repository; each is modelled in a definition that says so.
-/

namespace Shadoof

noncomputable section

/-! ## Vectors, boxes and fields -/

/-- The Go type `v2.Vec`. -/
structure V2 where
  X : ℝ
  Y : ℝ

/-- The Go type `v3.Vec`. -/
structure V3 where
  X : ℝ
  Y : ℝ
  Z : ℝ

/-- The Go type `sdf.Box2`: an axis-aligned box given by two corners. -/
structure Box2 where
  Min : V2
  Max : V2

/-- The Go type `sdf.Box3`. -/
structure Box3 where
  Min : V3
  Max : V3

/-- The interface `sdf.SDF2`: a planar field with its bounding box. -/
structure SDF2 where
  Evaluate : V2 → ℝ
  BoundingBox : Box2

/-- The interface `sdf.SDF3`: a spatial field with its bounding box. -/
structure SDF3 where
  Evaluate : V3 → ℝ
  BoundingBox : Box3

/-- The Go type `sdf.MaxFunc`: a binary blend of two distances. -/
abbrev MaxFunc : Type := ℝ → ℝ → ℝ

/-! ## The Go standard library, over the reals -/

/-- Go's `math.Atan2 (y, x)` over the reals: the angle of the point `(x, y)`
from the positive X axis, in `(-π, π]`; it is `π/2` on the positive Y axis,
`-π/2` on the negative Y axis, `π` on the negative X axis and `0` at the
origin.  This is the principal argument of the complex number `x + y i`. -/
def Atan2 (y x : ℝ) : ℝ := Complex.arg ⟨x, y⟩

/-! ## The sdfx dependency -/

/-- Modelled from the spec: the helper `sdfBox2d` of the sdfx dependency is not
among the sources.  It is the signed distance from `p` to the origin-centred
rectangle of half-size `s` (negative inside, positive outside, zero on the
boundary), computed on the absolute values of the coordinates. -/
def sdfBox2d (p s : V2) : ℝ :=
  let p : V2 := ⟨|p.X|, |p.Y|⟩
  let d : V2 := ⟨p.X - s.X, p.Y - s.Y⟩
  let k := s.Y - s.X
  if 0 < d.X ∧ 0 < d.Y then Real.sqrt (d.X * d.X + d.Y * d.Y)
  else if k < p.Y - p.X then d.Y
  else d.X

/-- The state of a solid cylinder of the sdfx dependency: half height, radius,
rounding and bounding box. -/
structure CylinderSDF3 where
  height : ℝ
  radius : ℝ
  round : ℝ
  bb : Box3

/-- Modelled from the spec: the evaluator of the primitive cylinder field of the
sdfx dependency is not among the sources.  It is "a finite right circular
cylinder of given height and radius, centered at the origin on the Z axis":
the signed distance of `(sqrt (x² + y²), z)` to the rectangle of half-size
`(radius, height / 2)`. -/
def CylinderSDF3.Evaluate (s : CylinderSDF3) (p : V3) : ℝ :=
  sdfBox2d ⟨Real.sqrt (p.X * p.X + p.Y * p.Y), p.Z⟩ ⟨s.radius - s.round, s.height⟩ - s.round

/-- The cylinder seen through the `sdf.SDF3` interface. -/
def CylinderSDF3.toSDF3 (s : CylinderSDF3) : SDF3 :=
  { Evaluate := s.Evaluate, BoundingBox := s.bb }

/-- Modelled from the spec: the constructor `sdf.Cylinder3D (height, radius,
round)` of the sdfx dependency is not among the sources.  It validates its
arguments (a radius `≤ 0` is "a propagated construction failure from that
collaborator") and returns either an error or the solid cylinder with bounding
box `[-radius, radius]² × [-height/2, height/2]`. -/
def Cylinder3D (height radius round : ℝ) : Except String SDF3 :=
  if radius ≤ 0 then Except.error "radius <= 0"
  else if round < 0 then Except.error "round < 0"
  else if radius < round then Except.error "round > radius"
  else if height < 2 * round then Except.error "height < 2 * round"
  else Except.ok (CylinderSDF3.toSDF3
    { height := height / 2 - round
      radius := radius
      round := round
      bb := ⟨⟨-radius, -radius, -(height / 2)⟩, ⟨radius, radius, height / 2⟩⟩ })

/-- Modelled from the spec: `sdf.Transform2D (s, sdf.Translate2d v)` of the sdfx
dependency is not among the sources.  It is "a new field equal to the input
field rigidly translated" by the offset `v`: the value at `p` is the value of
`s` at `p - v`, and the bounding box is the box of `s` moved by `v`. -/
def TransformTranslate2d (s : SDF2) (v : V2) : SDF2 :=
  { Evaluate := fun p => s.Evaluate ⟨p.X - v.X, p.Y - v.Y⟩
    BoundingBox :=
      ⟨⟨s.BoundingBox.Min.X + v.X, s.BoundingBox.Min.Y + v.Y⟩,
       ⟨s.BoundingBox.Max.X + v.X, s.BoundingBox.Max.Y + v.Y⟩⟩ }

/-- Modelled from the spec: `sdf.Transform3D (s, sdf.Translate3d v)` of the sdfx
dependency is not among the sources.  It is "a new field equal to the input
field rigidly translated by a 3D offset": the value at `p` is the value of `s`
at `p - v`, and the bounding box is the box of `s` moved by `v`. -/
def TransformTranslate3d (s : SDF3) (v : V3) : SDF3 :=
  { Evaluate := fun p => s.Evaluate ⟨p.X - v.X, p.Y - v.Y, p.Z - v.Z⟩
    BoundingBox :=
      ⟨⟨s.BoundingBox.Min.X + v.X, s.BoundingBox.Min.Y + v.Y, s.BoundingBox.Min.Z + v.Z⟩,
       ⟨s.BoundingBox.Max.X + v.X, s.BoundingBox.Max.Y + v.Y, s.BoundingBox.Max.Z + v.Z⟩⟩ }

/-- Modelled from the spec: `sdf.Clamp` of the sdfx dependency is not among the
sources; it clamps `x` to the interval `[a, b]`. -/
def Clamp (x a b : ℝ) : ℝ :=
  if x < a then a
  else if b < x then b
  else x

/-- Modelled from the spec: `sdf.Mix` of the sdfx dependency is not among the
sources; it is the linear interpolation from `x` to `y`. -/
def Mix (x y a : ℝ) : ℝ := x + a * (y - x)

/-- Modelled from the spec: the rounded blend `sdf.PolyMax k` of the sdfx
dependency is not among the sources.  It is the "continuous maximum-like
operator parametrized by a rounding radius": the polynomial smooth maximum
`Mix (a, b, h) + k * h * (1 - h)` with `h = Clamp (0.5 + 0.5 * (b - a) / k, 0, 1)`,
which blends `a` and `b` where they are within `k` of each other and is the
maximum elsewhere. -/
def PolyMax (k : ℝ) : MaxFunc := fun a b =>
  let h := Clamp (0.5 + 0.5 * (b - a) / k) 0 1
  Mix a b h + k * h * (1.0 - h)

/-- Modelled from the spec: the rectangle primitive `sdf.Box2D (size, round)` of
the sdfx dependency is not among the sources.  It is the origin-centred
rectangle of the given size, interior negative. -/
def Box2D (size : V2) (round : ℝ) : SDF2 :=
  let size : V2 := ⟨size.X * 0.5, size.Y * 0.5⟩
  { Evaluate := fun p => sdfBox2d p ⟨size.X - round, size.Y - round⟩ - round
    BoundingBox := ⟨⟨-size.X, -size.Y⟩, ⟨size.X, size.Y⟩⟩ }

/-- Modelled from the spec: `Sub` of the sdfx vector type `v2.Vec` is not among the
sources; it is the componentwise difference. -/
def V2.Sub (a b : V2) : V2 := ⟨a.X - b.X, a.Y - b.Y⟩

/-- Modelled from the spec: `Sub` of the sdfx vector type `v3.Vec` is not among the
sources; it is the componentwise difference. -/
def V3.Sub (a b : V3) : V3 := ⟨a.X - b.X, a.Y - b.Y, a.Z - b.Z⟩

/-- Modelled from the spec: `Size` of the sdfx type `sdf.Box2` is not among the
sources; it is the extent of the box, `Max - Min`. -/
def Box2.Size (a : Box2) : V2 := a.Max.Sub a.Min

/-- Modelled from the spec: `Center` of the sdfx type `sdf.Box2` is not among the
sources; it is the centre of the box, `Min` plus half the size. -/
def Box2.Center (a : Box2) : V2 :=
  ⟨a.Min.X + a.Size.X * 0.5, a.Min.Y + a.Size.Y * 0.5⟩

/-- Modelled from the spec: `Size` of the sdfx type `sdf.Box3` is not among the
sources; it is the extent of the box, `Max - Min`. -/
def Box3.Size (a : Box3) : V3 := a.Max.Sub a.Min

/-- Modelled from the spec: `Center` of the sdfx type `sdf.Box3` is not among the
sources; it is the centre of the box, `Min` plus half the size. -/
def Box3.Center (a : Box3) : V3 :=
  ⟨a.Min.X + a.Size.X * 0.5, a.Min.Y + a.Size.Y * 0.5, a.Min.Z + a.Size.Z * 0.5⟩

/-! ## transform.go -/

/-- The Go type `Side`, an `int`. -/
abbrev Side : Type := ℤ

/-- The constant `Left`, the first of the `iota` block. -/
def Left : Side := 0

/-- The constant `Right`. -/
def Right : Side := 1

/-- The constant `Top`. -/
def Top : Side := 2

/-- The constant `Bottom`. -/
def Bottom : Side := 3

/-- The constant `Front`. -/
def Front : Side := 4

/-- The constant `Back`. -/
def Back : Side := 5

/-- The function `Translate2D` of transform.go. -/
def Translate2D (s : SDF2) (x y : ℝ) : SDF2 :=
  TransformTranslate2d s ⟨x, y⟩

/-- The function `Translate3D` of transform.go. -/
def Translate3D (s : SDF3) (x y z : ℝ) : SDF3 :=
  TransformTranslate3d s ⟨x, y, z⟩

/-- The function `SetOnXYPlane`. -/
def SetOnXYPlane (s : SDF3) : SDF3 :=
  let bb := s.BoundingBox
  Translate3D s 0 0 (-bb.Min.Z)

/-- The function `CenterWith2D`. -/
def CenterWith2D (s1 s2 : SDF2) : SDF2 :=
  let bb1 := s1.BoundingBox
  let bb2 := s2.BoundingBox
  let offset := bb1.Center.Sub bb2.Center
  Translate2D s2 offset.X offset.Y

/-- The function `Center2DWith3D`. -/
def Center2DWith3D (s1 : SDF3) (s2 : SDF2) : SDF2 :=
  let bb1 := s1.BoundingBox
  let bb2 := s2.BoundingBox
  let center1 := bb1.Center
  let offset := V2.Sub ⟨center1.X, center1.Y⟩ bb2.Center
  Translate2D s2 offset.X offset.Y

/-- The function `CenterWith3D`. -/
def CenterWith3D (s1 s2 : SDF3) : SDF3 :=
  let bb1 := s1.BoundingBox
  let bb2 := s2.BoundingBox
  let offset := bb1.Center.Sub bb2.Center
  Translate3D s2 offset.X offset.Y offset.Z

/-- The function `AbutWith2D`; `none` is the panic of the `default` case. -/
def AbutWith2D (s1 s2 : SDF2) (side : Side) : Option SDF2 :=
  let bb1 := s1.BoundingBox
  let bb2 := s2.BoundingBox
  if side = Left then some (Translate2D s2 (bb1.Min.X - bb2.Max.X) 0)
  else if side = Right then some (Translate2D s2 (bb1.Max.X - bb2.Min.X) 0)
  else if side = Bottom then some (Translate2D s2 0 (bb1.Max.Y - bb2.Min.Y))
  else if side = Top then some (Translate2D s2 0 (bb1.Min.Y - bb2.Max.Y))
  else none

/-- The function `AbutWith3D`; `none` is the panic of the `default` case. -/
def AbutWith3D (s1 s2 : SDF3) (side : Side) : Option SDF3 :=
  let bb1 := s1.BoundingBox
  let bb2 := s2.BoundingBox
  if side = Left then some (Translate3D s2 (bb1.Min.X - bb2.Max.X) 0 0)
  else if side = Right then some (Translate3D s2 (bb1.Max.X - bb2.Min.X) 0 0)
  else if side = Front then some (Translate3D s2 0 (bb1.Min.Y - bb2.Max.Y) 0)
  else if side = Back then some (Translate3D s2 0 (bb1.Max.Y - bb2.Min.Y) 0)
  else if side = Bottom then some (Translate3D s2 0 0 (bb1.Min.Z - bb2.Max.Z))
  else if side = Top then some (Translate3D s2 0 0 (bb1.Max.Z - bb2.Min.Z))
  else none

/-- The function `AlignWith2D`; `none` is the panic of the `default` case. -/
def AlignWith2D (s1 s2 : SDF2) (side : Side) : Option SDF2 :=
  let bb1 := s1.BoundingBox
  let bb2 := s2.BoundingBox
  if side = Left then some (Translate2D s2 (bb1.Min.X - bb2.Min.X) 0)
  else if side = Right then some (Translate2D s2 (bb1.Max.X - bb2.Max.X) 0)
  else if side = Bottom then some (Translate2D s2 0 (bb1.Min.Y - bb2.Min.Y))
  else if side = Top then some (Translate2D s2 0 (bb1.Max.Y - bb2.Max.Y))
  else none

/-- The function `AlignWith3D`; `none` is the panic of the `default` case. -/
def AlignWith3D (s1 s2 : SDF3) (side : Side) : Option SDF3 :=
  let bb1 := s1.BoundingBox
  let bb2 := s2.BoundingBox
  if side = Left then some (Translate3D s2 (bb1.Min.X - bb2.Min.X) 0 0)
  else if side = Right then some (Translate3D s2 (bb1.Max.X - bb2.Max.X) 0 0)
  else if side = Front then some (Translate3D s2 0 (bb1.Min.Y - bb2.Min.Y) 0)
  else if side = Back then some (Translate3D s2 0 (bb1.Max.Y - bb2.Max.Y) 0)
  else if side = Bottom then some (Translate3D s2 0 0 (bb1.Min.Z - bb2.Min.Z))
  else if side = Top then some (Translate3D s2 0 0 (bb1.Max.Z - bb2.Max.Z))
  else none

/-! ## wrapcylinder.go -/

/-- The struct `WrapSylinderSDF`: an `SDF2` wrapped around a cylinder. -/
structure WrapSylinderSDF where
  SDF2 : Shadoof.SDF2
  width : ℝ
  outerCylinder : SDF3
  innerCylinder : SDF3
  innerMax : MaxFunc
  outerMax : MaxFunc

/-- The function `WrapAroundCylinder`.  The errors of both `Cylinder3D` calls
are discarded, so a failed constructor leaves a nil field; `Translate3D` then
asks the nil field for its bounding box, which aborts the construction
(`none`).  Otherwise the wrap is returned. -/
def WrapAroundCylinder (sdf2d : SDF2)
    (innerRadius thickness roundInside roundOutside : ℝ) : Option WrapSylinderSDF :=
  let outerRadius := innerRadius + thickness
  let width := Real.pi * innerRadius
  let sdfBb := sdf2d.BoundingBox
  let height := sdfBb.Max.Y - sdfBb.Min.Y
  match (Cylinder3D height outerRadius 0).toOption, (Cylinder3D height innerRadius 0).toOption with
  | some outerCylinder, some innerCylinder =>
    let outerCylinder := Translate3D outerCylinder 0 0 (height / 2 + sdfBb.Min.Y)
    let innerCylinder := Translate3D innerCylinder 0 0 (height / 2 + sdfBb.Min.Y)
    let innerMax : MaxFunc := if roundInside = 0 then max else PolyMax roundInside
    let outerMax : MaxFunc := if roundOutside = 0 then max else PolyMax roundOutside
    some
      { SDF2 := sdf2d
        width := width
        outerCylinder := outerCylinder
        innerCylinder := innerCylinder
        innerMax := innerMax
        outerMax := outerMax }
  | _, _ => none

/-- The method `BoundingBox` of `WrapSylinderSDF`. -/
def WrapSylinderSDF.BoundingBox (s : WrapSylinderSDF) : Box3 :=
  s.outerCylinder.BoundingBox

/-- The remapped angle of `Evaluate`: `math.Atan2 (p.Y, p.X)` plus `π / 2`. -/
def WrapSylinderSDF.angle (p : V3) : ℝ :=
  Atan2 p.Y p.X + Real.pi / 2

/-- The planar point `p2` at which `Evaluate` samples the planar field. -/
def WrapSylinderSDF.p2 (s : WrapSylinderSDF) (p : V3) : V2 :=
  { X := s.width * WrapSylinderSDF.angle p / Real.pi, Y := p.Z }

/-- The method `Evaluate` of `WrapSylinderSDF`. -/
def WrapSylinderSDF.Evaluate (s : WrapSylinderSDF) (p : V3) : ℝ :=
  let dist := s.SDF2.Evaluate (s.p2 p)
  let dist := s.outerMax dist (s.outerCylinder.Evaluate p)
  let dist := s.innerMax dist (-(s.innerCylinder.Evaluate p))
  dist

/-- The wrap seen through the `sdf.SDF3` interface, as `WrapAroundCylinder`
returns it. -/
def WrapSylinderSDF.toSDF3 (s : WrapSylinderSDF) : SDF3 :=
  { Evaluate := s.Evaluate, BoundingBox := s.BoundingBox }

/-- The planar field of the example scenario: the rectangle `X ∈ [-π, π]`,
`Y ∈ [0, 10]`, interior negative. -/
def exampleRectangle : SDF2 :=
  Translate2D (Box2D ⟨2 * Real.pi, 10⟩ 0) 0 5

/-- A planar square of side `2` centred at the origin, used as a concrete input
of the positioning helpers. -/
def exampleSquare : SDF2 := Box2D ⟨2, 2⟩ 0

/-- A solid cylinder of height `2` and radius `1` centred at the origin, as
`Cylinder3D 2 1 0` returns it, used as a concrete input of the positioning
helpers. -/
def exampleCylinder : SDF3 :=
  CylinderSDF3.toSDF3
    { height := 2 / 2 - 0, radius := 1, round := 0, bb := ⟨⟨-1, -1, -(2 / 2)⟩, ⟨1, 1, 2 / 2⟩⟩ }

/-- What a successful construction stores, field by field: the planar field,
the width `π * r`, the two translated cylinders (their values and the outer
bounding box) and the two selected blends.  A predicate of the proofs, not a
function of the sources. -/
def IsWrapOf (F : SDF2) (r t ri ro : ℝ) (w : WrapSylinderSDF) : Prop :=
  w.SDF2 = F ∧ w.width = Real.pi * r ∧
  (∀ p : V3, w.outerCylinder.Evaluate p =
    sdfBox2d ⟨Real.sqrt (p.X * p.X + p.Y * p.Y),
      p.Z - ((F.BoundingBox.Max.Y - F.BoundingBox.Min.Y) / 2 + F.BoundingBox.Min.Y)⟩
      ⟨r + t, (F.BoundingBox.Max.Y - F.BoundingBox.Min.Y) / 2⟩) ∧
  (∀ p : V3, w.innerCylinder.Evaluate p =
    sdfBox2d ⟨Real.sqrt (p.X * p.X + p.Y * p.Y),
      p.Z - ((F.BoundingBox.Max.Y - F.BoundingBox.Min.Y) / 2 + F.BoundingBox.Min.Y)⟩
      ⟨r, (F.BoundingBox.Max.Y - F.BoundingBox.Min.Y) / 2⟩) ∧
  w.outerCylinder.BoundingBox =
    ⟨⟨-(r + t), -(r + t), F.BoundingBox.Min.Y⟩, ⟨r + t, r + t, F.BoundingBox.Max.Y⟩⟩ ∧
  w.innerMax = (if ri = 0 then max else PolyMax ri) ∧
  w.outerMax = (if ro = 0 then max else PolyMax ro)

/-! ## Facts about the modelled library -/

section Library

/-- The rectangle distance is negative exactly strictly inside the rectangle. -/
theorem sdfBox2d_neg_iff (p s : V2) :
    sdfBox2d p s < 0 ↔ |p.X| < s.X ∧ |p.Y| < s.Y := by
  unfold sdfBox2d
  simp only
  split_ifs with h1 h2
  · constructor
    · intro h
      exact absurd h (not_lt.mpr (Real.sqrt_nonneg _))
    · rintro ⟨a, _⟩
      linarith [h1.1]
  · constructor
    · intro h
      constructor <;> linarith
    · rintro ⟨_, b⟩
      linarith
  · constructor
    · intro h
      constructor <;> linarith
    · rintro ⟨a, _⟩
      linarith

/-- The rectangle distance is positive exactly strictly outside the rectangle. -/
theorem sdfBox2d_pos_iff (p s : V2) :
    0 < sdfBox2d p s ↔ s.X < |p.X| ∨ s.Y < |p.Y| := by
  unfold sdfBox2d
  simp only
  split_ifs with h1 h2
  · constructor
    · intro _
      exact Or.inl (by linarith [h1.1])
    · intro _
      exact Real.sqrt_pos.mpr (add_pos (mul_pos h1.1 h1.1) (mul_pos h1.2 h1.2))
  · constructor
    · intro h
      exact Or.inr (by linarith)
    · rintro (a | b) <;> linarith
  · constructor
    · intro h
      exact Or.inl (by linarith)
    · rintro (a | b) <;> linarith

/-- The rounded blend is never below the hard maximum. -/
theorem max_le_PolyMax (k : ℝ) (hk : 0 < k) (a b : ℝ) : max a b ≤ PolyMax k a b := by
  unfold PolyMax Clamp Mix
  simp only
  split_ifs with h1 h2
  · have hd : b - a < -k := by
      have := mul_lt_mul_of_pos_right h1 hk
      field_simp at this
      linarith
    rw [max_eq_left (by linarith)]
    linarith
  · have hd : k < b - a := by
      have := mul_lt_mul_of_pos_right h2 hk
      field_simp at this
      linarith
    rw [max_eq_right (by linarith)]
    linarith
  · have e : a + (0.5 + 0.5 * (b - a) / k) * (b - a)
        + k * (0.5 + 0.5 * (b - a) / k) * (1.0 - (0.5 + 0.5 * (b - a) / k))
        = a + (b - a + k) ^ 2 / (4 * k) := by
      field_simp
      ring
    rw [e]
    apply max_le
    · have : 0 ≤ (b - a + k) ^ 2 / (4 * k) := by positivity
      linarith
    · have h4 : (b - a) ≤ (b - a + k) ^ 2 / (4 * k) := by
        rw [le_div_iff₀ (by positivity)]
        nlinarith [sq_nonneg (b - a - k)]
      linarith

/-- The rounded blend exceeds the hard maximum by at most a quarter of the
rounding radius. -/
theorem PolyMax_le_max_add (k : ℝ) (hk : 0 < k) (a b : ℝ) :
    PolyMax k a b ≤ max a b + k / 4 := by
  unfold PolyMax Clamp Mix
  simp only
  split_ifs with h1 h2
  · have : a ≤ max a b := le_max_left a b
    linarith
  · have : b ≤ max a b := le_max_right a b
    linarith
  · have e : a + (0.5 + 0.5 * (b - a) / k) * (b - a)
        + k * (0.5 + 0.5 * (b - a) / k) * (1.0 - (0.5 + 0.5 * (b - a) / k))
        = a + (b - a + k) ^ 2 / (4 * k) := by
      field_simp
      ring
    rw [e]
    have l1 : -k ≤ b - a := by
      have := mul_le_mul_of_nonneg_right (not_lt.mp h1) hk.le
      field_simp at this
      linarith
    have l2 : b - a ≤ k := by
      have := mul_le_mul_of_nonneg_right (not_lt.mp h2) hk.le
      field_simp at this
      linarith
    rcases le_total a b with hab | hab
    · rw [max_eq_right hab]
      have : (b - a + k) ^ 2 / (4 * k) ≤ (b - a) + k / 4 := by
        rw [div_le_iff₀ (by positivity)]
        nlinarith [mul_nonneg (sub_nonneg.mpr hab) (sub_nonneg.mpr l2)]
      linarith
    · rw [max_eq_left hab]
      have : (b - a + k) ^ 2 / (4 * k) ≤ k / 4 := by
        rw [div_le_iff₀ (by positivity)]
        nlinarith [mul_nonneg (sub_nonneg.mpr hab) (by linarith : 0 ≤ b - a + k)]
      linarith

end Library

/-! ## Facts about the construction -/

section Construction

/-- A solid cylinder of radius `R` spanning the heights `lo .. hi` is negative
exactly strictly inside. -/
theorem cylinder_neg_iff (R lo hi : ℝ) (p : V3) :
    sdfBox2d ⟨Real.sqrt (p.X * p.X + p.Y * p.Y), p.Z - ((hi - lo) / 2 + lo)⟩ ⟨R, (hi - lo) / 2⟩ < 0
      ↔ Real.sqrt (p.X * p.X + p.Y * p.Y) < R ∧ lo < p.Z ∧ p.Z < hi := by
  rw [sdfBox2d_neg_iff]
  simp only [abs_of_nonneg (Real.sqrt_nonneg _), abs_lt]
  constructor
  · rintro ⟨a, b, c⟩
    exact ⟨a, by linarith, by linarith⟩
  · rintro ⟨a, b, c⟩
    exact ⟨a, by linarith, by linarith⟩

/-- A solid cylinder of radius `R` spanning the heights `lo .. hi` is positive
exactly strictly outside. -/
theorem cylinder_pos_iff (R lo hi : ℝ) (p : V3) :
    0 < sdfBox2d ⟨Real.sqrt (p.X * p.X + p.Y * p.Y), p.Z - ((hi - lo) / 2 + lo)⟩ ⟨R, (hi - lo) / 2⟩
      ↔ R < Real.sqrt (p.X * p.X + p.Y * p.Y) ∨ p.Z < lo ∨ hi < p.Z := by
  rw [sdfBox2d_pos_iff]
  simp only [abs_of_nonneg (Real.sqrt_nonneg _), lt_abs]
  constructor
  · rintro (a | b | c)
    · exact Or.inl a
    · exact Or.inr (Or.inr (by linarith))
    · exact Or.inr (Or.inl (by linarith))
  · rintro (a | b | c)
    · exact Or.inl a
    · exact Or.inr (Or.inr (by linarith))
    · exact Or.inr (Or.inl (by linarith))

/-- The construction aborts when a cylinder constructor rejects its arguments. -/
theorem WrapAroundCylinder_eq_none (F : SDF2) (r t ri ro : ℝ)
    (h : r ≤ 0 ∨ r + t ≤ 0 ∨ F.BoundingBox.Max.Y < F.BoundingBox.Min.Y) :
    WrapAroundCylinder F r t ri ro = none := by
  unfold WrapAroundCylinder Cylinder3D
  rcases h with h | h | h
  · simp [h, Except.toOption]
  · simp [h, Except.toOption]
  · have h2 : F.BoundingBox.Max.Y - F.BoundingBox.Min.Y < 0 := by linarith
    by_cases h1 : r + t ≤ 0
    · simp [h1, Except.toOption]
    · have h3 : ¬ (r + t < 0) := fun h4 => h1 h4.le
      simp [h1, h2, h3, Except.toOption]

/-- The construction succeeds when both radii are positive and the planar box is
not inverted, and stores what `IsWrapOf` says. -/
theorem WrapAroundCylinder_eq_some (F : SDF2) (r t ri ro : ℝ) (hr : 0 < r) (hrt : 0 < r + t)
    (hbb : F.BoundingBox.Min.Y ≤ F.BoundingBox.Max.Y) :
    ∃ w, WrapAroundCylinder F r t ri ro = some w ∧ IsWrapOf F r t ri ro w := by
  have h1 : ¬ (r ≤ 0) := not_le.mpr hr
  have h2 : ¬ (r + t ≤ 0) := not_le.mpr hrt
  have h3 : ¬ (r < 0) := fun h => h1 h.le
  have h4 : ¬ (r + t < 0) := fun h => h2 h.le
  have h5 : ¬ (F.BoundingBox.Max.Y - F.BoundingBox.Min.Y < 0) := by
    intro h
    linarith
  unfold WrapAroundCylinder Cylinder3D
  simp only [h1, h2, h3, h4, h5, if_false, mul_zero, lt_irrefl, Except.toOption]
  refine ⟨_, rfl, rfl, rfl, ?_, ?_, ?_, rfl, rfl⟩
  · intro p
    simp [Translate3D, TransformTranslate3d, CylinderSDF3.toSDF3, CylinderSDF3.Evaluate]
  · intro p
    simp [Translate3D, TransformTranslate3d, CylinderSDF3.toSDF3, CylinderSDF3.Evaluate]
  · simp only [Translate3D, TransformTranslate3d, CylinderSDF3.toSDF3]
    congr 2 <;> ring

/-- Whatever the construction returns was built from positive radii over a
planar box that is not inverted, and stores what `IsWrapOf` says. -/
theorem WrapAroundCylinder_some_inv (F : SDF2) (r t ri ro : ℝ) (w : WrapSylinderSDF)
    (hw : WrapAroundCylinder F r t ri ro = some w) :
    0 < r ∧ 0 < r + t ∧ F.BoundingBox.Min.Y ≤ F.BoundingBox.Max.Y ∧ IsWrapOf F r t ri ro w := by
  by_cases hr : r ≤ 0
  · rw [WrapAroundCylinder_eq_none F r t ri ro (Or.inl hr)] at hw
    exact absurd hw (by simp)
  by_cases hrt : r + t ≤ 0
  · rw [WrapAroundCylinder_eq_none F r t ri ro (Or.inr (Or.inl hrt))] at hw
    exact absurd hw (by simp)
  by_cases hbb : F.BoundingBox.Max.Y < F.BoundingBox.Min.Y
  · rw [WrapAroundCylinder_eq_none F r t ri ro (Or.inr (Or.inr hbb))] at hw
    exact absurd hw (by simp)
  obtain ⟨w2, hw2, hspec⟩ := WrapAroundCylinder_eq_some F r t ri ro (not_le.mp hr)
    (not_le.mp hrt) (not_lt.mp hbb)
  rw [hw] at hw2
  cases hw2
  exact ⟨not_le.mp hr, not_le.mp hrt, not_lt.mp hbb, hspec⟩

end Construction

/-! ## Facts about evaluation -/

section Evaluation

/-- The blend selected for a rounding radius `k ≥ 0` is never below the hard
maximum. -/
theorem max_le_blend (k : ℝ) (hk : 0 ≤ k) (a b : ℝ) :
    max a b ≤ (if k = 0 then max else PolyMax k : MaxFunc) a b := by
  split_ifs with h
  · exact le_refl _
  · exact max_le_PolyMax k (lt_of_le_of_ne hk (Ne.symm h)) a b

/-- The value of `Evaluate`, with the stored fields of a constructed wrap
spelled out. -/
theorem Evaluate_eq (F : SDF2) (r t ri ro : ℝ) (w : WrapSylinderSDF)
    (h : IsWrapOf F r t ri ro w) (p : V3) :
    w.Evaluate p =
      (if ri = 0 then max else PolyMax ri : MaxFunc)
        ((if ro = 0 then max else PolyMax ro : MaxFunc)
          (F.Evaluate ⟨Real.pi * r * (Atan2 p.Y p.X + Real.pi / 2) / Real.pi, p.Z⟩)
          (w.outerCylinder.Evaluate p))
        (-(w.innerCylinder.Evaluate p)) := by
  obtain ⟨hF, hwid, _, _, _, him, hom⟩ := h
  simp only [WrapSylinderSDF.Evaluate, WrapSylinderSDF.p2, WrapSylinderSDF.angle, hF, hwid,
    him, hom]

/-- With both blends hard, a constructed wrap is negative exactly on the pattern
restricted to the open shell. -/
theorem Evaluate_hard_neg_iff (F : SDF2) (r t : ℝ) (w : WrapSylinderSDF)
    (h : IsWrapOf F r t 0 0 w) (p : V3) :
    w.Evaluate p < 0 ↔
      F.Evaluate ⟨Real.pi * r * (Atan2 p.Y p.X + Real.pi / 2) / Real.pi, p.Z⟩ < 0 ∧
      r < Real.sqrt (p.X * p.X + p.Y * p.Y) ∧ Real.sqrt (p.X * p.X + p.Y * p.Y) < r + t ∧
      F.BoundingBox.Min.Y < p.Z ∧ p.Z < F.BoundingBox.Max.Y := by
  rw [Evaluate_eq F r t 0 0 w h p]
  obtain ⟨_, _, ho, hi, _, _, _⟩ := h
  simp only [if_true, max_lt_iff, neg_lt_zero, ho, hi, cylinder_neg_iff, cylinder_pos_iff]
  constructor
  · rintro ⟨⟨hf, ha, hb, hc⟩, hd⟩
    rcases hd with hd | hd | hd
    · exact ⟨hf, hd, ha, hb, hc⟩
    · exact absurd hb (not_lt.mpr hd.le)
    · exact absurd hc (not_lt.mpr hd.le)
  · rintro ⟨hf, ha, hb, hc, hd⟩
    exact ⟨⟨hf, hb, hc, hd⟩, Or.inl ha⟩

/-- The outer cylinder bounds every constructed wrap from below when the
rounding radii are not negative. -/
theorem outerCylinder_le_Evaluate (F : SDF2) (r t ri ro : ℝ) (w : WrapSylinderSDF)
    (h : IsWrapOf F r t ri ro w) (hri : 0 ≤ ri) (hro : 0 ≤ ro) (p : V3) :
    w.outerCylinder.Evaluate p ≤ w.Evaluate p := by
  rw [Evaluate_eq F r t ri ro w h p]
  refine le_trans ?_ (le_trans (le_max_left _ _) (max_le_blend ri hri _ _))
  exact le_trans (le_max_right _ _) (max_le_blend ro hro _ _)

/-- The negated inner cylinder bounds every constructed wrap from below when the
inner rounding radius is not negative. -/
theorem neg_innerCylinder_le_Evaluate (F : SDF2) (r t ri ro : ℝ) (w : WrapSylinderSDF)
    (h : IsWrapOf F r t ri ro w) (hri : 0 ≤ ri) (p : V3) :
    -(w.innerCylinder.Evaluate p) ≤ w.Evaluate p := by
  rw [Evaluate_eq F r t ri ro w h p]
  exact le_trans (le_max_right _ _) (max_le_blend ri hri _ _)

/-- The bounding box of the example rectangle. -/
theorem exampleRectangle_BoundingBox :
    exampleRectangle.BoundingBox = ⟨⟨-Real.pi, 0⟩, ⟨Real.pi, 10⟩⟩ := by
  simp only [exampleRectangle, Translate2D, TransformTranslate2d, Box2D]
  congr 2 <;> norm_num <;> ring

/-- The value of the example rectangle at a planar point. -/
theorem exampleRectangle_Evaluate (q : V2) :
    exampleRectangle.Evaluate q = sdfBox2d ⟨q.X, q.Y - 5⟩ ⟨Real.pi, 5⟩ := by
  simp only [exampleRectangle, Translate2D, TransformTranslate2d, Box2D]
  have e : 2 * Real.pi * 0.5 - 0 = Real.pi := by ring
  have e5 : (10 : ℝ) * 0.5 - 0 = 5 := by norm_num
  rw [e, e5, sub_zero, sub_zero]

/-- The angle of a point on the positive X axis is zero. -/
theorem Atan2_zero_pos (x : ℝ) (hx : 0 < x) : Atan2 0 x = 0 := by
  unfold Atan2
  exact Complex.arg_ofReal_of_nonneg hx.le

/-- The angle of a point on the positive Y axis is a quarter turn. -/
theorem Atan2_pos_zero (y : ℝ) (hy : 0 < y) : Atan2 y 0 = Real.pi / 2 := by
  unfold Atan2
  exact Complex.arg_eq_pi_div_two_iff.mpr ⟨rfl, hy⟩

/-- The angle of a point on the negative Y axis is minus a quarter turn. -/
theorem Atan2_neg_zero (y : ℝ) (hy : y < 0) : Atan2 y 0 = -(Real.pi / 2) := by
  unfold Atan2
  exact Complex.arg_eq_neg_pi_div_two_iff.mpr ⟨rfl, hy⟩

/-- The angle of a point on the negative X axis is a half turn. -/
theorem Atan2_zero_neg (x : ℝ) (hx : x < 0) : Atan2 0 x = Real.pi := by
  unfold Atan2
  exact Complex.arg_eq_pi_iff.mpr ⟨hx, rfl⟩

/-- The angle at the origin is zero. -/
theorem Atan2_zero_zero : Atan2 0 0 = 0 := by
  unfold Atan2
  exact Complex.arg_eq_zero_iff.mpr ⟨le_refl _, rfl⟩

/-- The angle lies in `(-π, π]`. -/
theorem Atan2_mem (y x : ℝ) : -Real.pi < Atan2 y x ∧ Atan2 y x ≤ Real.pi :=
  ⟨Complex.neg_pi_lt_arg _, Complex.arg_le_pi _⟩

/-- Away from the outside corner region the rectangle distance is the larger of
the two coordinate excesses. -/
theorem sdfBox2d_eq_max (p s : V2) (h : ¬ (0 < |p.X| - s.X ∧ 0 < |p.Y| - s.Y)) :
    sdfBox2d p s = max (|p.X| - s.X) (|p.Y| - s.Y) := by
  unfold sdfBox2d
  simp only
  rw [if_neg h]
  split_ifs with h2
  · rw [max_eq_right (by linarith)]
  · rw [max_eq_left (by linarith)]

/-- The distance from the Z axis of a point on the Y axis. -/
theorem sqrt_zero_add_sq (y : ℝ) : Real.sqrt (0 * 0 + y * y) = |y| := by
  rw [zero_mul, zero_add]
  exact Real.sqrt_mul_self_eq_abs y

/-- The distance from the Z axis of a point on the X axis. -/
theorem sqrt_sq_add_zero (x : ℝ) : Real.sqrt (x * x + 0 * 0) = |x| := by
  rw [zero_mul, add_zero]
  exact Real.sqrt_mul_self_eq_abs x

/-- The distance from the Z axis is at least the absolute X coordinate. -/
theorem abs_X_le_sqrt (x y : ℝ) : |x| ≤ Real.sqrt (x * x + y * y) :=
  Real.abs_le_sqrt (by nlinarith [mul_self_nonneg y])

/-- The distance from the Z axis is at least the absolute Y coordinate. -/
theorem abs_Y_le_sqrt (x y : ℝ) : |y| ≤ Real.sqrt (x * x + y * y) :=
  Real.abs_le_sqrt (by nlinarith [mul_self_nonneg x])

/-- Under a hard inner blend, rounding the outer blend by `k > 0` raises the
value by at least `0` and at most `k / 4`. -/
theorem hard_inner_rounded_outer_bounds (k : ℝ) (hk : 0 < k) (d o c : ℝ) :
    0 ≤ max (PolyMax k d o) c - max (max d o) c ∧
    max (PolyMax k d o) c - max (max d o) c ≤ k / 4 := by
  have l1 := max_le_PolyMax k hk d o
  have l2 := PolyMax_le_max_add k hk d o
  constructor
  · exact sub_nonneg.mpr (max_le_max l1 (le_refl _))
  · rw [sub_le_iff_le_add']
    apply max_le
    · have := le_max_left (max d o) c
      linarith
    · have := le_max_right (max d o) c
      linarith

/-- The angle of the point at polar coordinates `(r, θ)` is `θ`, for `r > 0` and
`θ` in `(-π, π]`. -/
theorem Atan2_polar (r : ℝ) (hr : 0 < r) (θ : ℝ) (hθ : θ ∈ Set.Ioc (-Real.pi) Real.pi) :
    Atan2 (r * Real.sin θ) (r * Real.cos θ) = θ := by
  unfold Atan2
  have e : (⟨r * Real.cos θ, r * Real.sin θ⟩ : ℂ)
      = (r : ℂ) * (Complex.cos (θ : ℂ) + Complex.sin (θ : ℂ) * Complex.I) := by
    apply Complex.ext
    · simp [Complex.cos_ofReal_re, Complex.sin_ofReal_im]
    · simp [Complex.cos_ofReal_im, Complex.sin_ofReal_re]
  rw [e]
  exact Complex.arg_mul_cos_add_sin_mul_I hr hθ

end Evaluation

/-! ## Facts about the positioning helpers -/

section Positioning

/-- Translating a planar field by zero leaves it as it is. -/
theorem Translate2D_zero (s : SDF2) : Translate2D s 0 0 = s := by
  cases s with
  | mk E B =>
    simp only [Translate2D, TransformTranslate2d, sub_zero, add_zero]

/-- Translating a spatial field by zero leaves it as it is. -/
theorem Translate3D_zero (s : SDF3) : Translate3D s 0 0 0 = s := by
  cases s with
  | mk E B =>
    simp only [Translate3D, TransformTranslate3d, sub_zero, add_zero]

/-- The bounding box of a translated planar field. -/
theorem Translate2D_BoundingBox (s : SDF2) (x y : ℝ) :
    (Translate2D s x y).BoundingBox =
      ⟨⟨s.BoundingBox.Min.X + x, s.BoundingBox.Min.Y + y⟩,
       ⟨s.BoundingBox.Max.X + x, s.BoundingBox.Max.Y + y⟩⟩ := rfl

/-- The bounding box of a translated spatial field. -/
theorem Translate3D_BoundingBox (s : SDF3) (x y z : ℝ) :
    (Translate3D s x y z).BoundingBox =
      ⟨⟨s.BoundingBox.Min.X + x, s.BoundingBox.Min.Y + y, s.BoundingBox.Min.Z + z⟩,
       ⟨s.BoundingBox.Max.X + x, s.BoundingBox.Max.Y + y, s.BoundingBox.Max.Z + z⟩⟩ := rfl

/-- The value of a translated planar field. -/
theorem Translate2D_Evaluate (s : SDF2) (x y : ℝ) (p : V2) :
    (Translate2D s x y).Evaluate p = s.Evaluate ⟨p.X - x, p.Y - y⟩ := rfl

/-- The value of a translated spatial field. -/
theorem Translate3D_Evaluate (s : SDF3) (x y z : ℝ) (p : V3) :
    (Translate3D s x y z).Evaluate p = s.Evaluate ⟨p.X - x, p.Y - y, p.Z - z⟩ := rfl

/-- What `AbutWith2D` returns for the side `Left`. -/
theorem AbutWith2D_Left (s1 s2 : SDF2) :
    AbutWith2D s1 s2 Left = some (Translate2D s2 (s1.BoundingBox.Min.X - s2.BoundingBox.Max.X) 0) := by
  simp [AbutWith2D, Left, Right, Top, Bottom, Front, Back]

/-- What `AbutWith2D` returns for the side `Right`. -/
theorem AbutWith2D_Right (s1 s2 : SDF2) :
    AbutWith2D s1 s2 Right = some (Translate2D s2 (s1.BoundingBox.Max.X - s2.BoundingBox.Min.X) 0) := by
  simp [AbutWith2D, Left, Right, Top, Bottom, Front, Back]

/-- What `AbutWith2D` returns for the side `Bottom`. -/
theorem AbutWith2D_Bottom (s1 s2 : SDF2) :
    AbutWith2D s1 s2 Bottom = some (Translate2D s2 0 (s1.BoundingBox.Max.Y - s2.BoundingBox.Min.Y)) := by
  simp [AbutWith2D, Left, Right, Top, Bottom, Front, Back]

/-- What `AbutWith2D` returns for the side `Top`. -/
theorem AbutWith2D_Top (s1 s2 : SDF2) :
    AbutWith2D s1 s2 Top = some (Translate2D s2 0 (s1.BoundingBox.Min.Y - s2.BoundingBox.Max.Y)) := by
  simp [AbutWith2D, Left, Right, Top, Bottom, Front, Back]

/-- What `AbutWith3D` returns for the side `Left`. -/
theorem AbutWith3D_Left (s1 s2 : SDF3) :
    AbutWith3D s1 s2 Left = some (Translate3D s2 (s1.BoundingBox.Min.X - s2.BoundingBox.Max.X) 0 0) := by
  simp [AbutWith3D, Left, Right, Top, Bottom, Front, Back]

/-- What `AbutWith3D` returns for the side `Right`. -/
theorem AbutWith3D_Right (s1 s2 : SDF3) :
    AbutWith3D s1 s2 Right = some (Translate3D s2 (s1.BoundingBox.Max.X - s2.BoundingBox.Min.X) 0 0) := by
  simp [AbutWith3D, Left, Right, Top, Bottom, Front, Back]

/-- What `AbutWith3D` returns for the side `Front`. -/
theorem AbutWith3D_Front (s1 s2 : SDF3) :
    AbutWith3D s1 s2 Front = some (Translate3D s2 0 (s1.BoundingBox.Min.Y - s2.BoundingBox.Max.Y) 0) := by
  simp [AbutWith3D, Left, Right, Top, Bottom, Front, Back]

/-- What `AbutWith3D` returns for the side `Back`. -/
theorem AbutWith3D_Back (s1 s2 : SDF3) :
    AbutWith3D s1 s2 Back = some (Translate3D s2 0 (s1.BoundingBox.Max.Y - s2.BoundingBox.Min.Y) 0) := by
  simp [AbutWith3D, Left, Right, Top, Bottom, Front, Back]

/-- What `AbutWith3D` returns for the side `Bottom`. -/
theorem AbutWith3D_Bottom (s1 s2 : SDF3) :
    AbutWith3D s1 s2 Bottom = some (Translate3D s2 0 0 (s1.BoundingBox.Min.Z - s2.BoundingBox.Max.Z)) := by
  simp [AbutWith3D, Left, Right, Top, Bottom, Front, Back]

/-- What `AbutWith3D` returns for the side `Top`. -/
theorem AbutWith3D_Top (s1 s2 : SDF3) :
    AbutWith3D s1 s2 Top = some (Translate3D s2 0 0 (s1.BoundingBox.Max.Z - s2.BoundingBox.Min.Z)) := by
  simp [AbutWith3D, Left, Right, Top, Bottom, Front, Back]

/-- What `AlignWith2D` returns for the side `Left`. -/
theorem AlignWith2D_Left (s1 s2 : SDF2) :
    AlignWith2D s1 s2 Left = some (Translate2D s2 (s1.BoundingBox.Min.X - s2.BoundingBox.Min.X) 0) := by
  simp [AlignWith2D, Left, Right, Top, Bottom, Front, Back]

/-- What `AlignWith2D` returns for the side `Right`. -/
theorem AlignWith2D_Right (s1 s2 : SDF2) :
    AlignWith2D s1 s2 Right = some (Translate2D s2 (s1.BoundingBox.Max.X - s2.BoundingBox.Max.X) 0) := by
  simp [AlignWith2D, Left, Right, Top, Bottom, Front, Back]

/-- What `AlignWith2D` returns for the side `Bottom`. -/
theorem AlignWith2D_Bottom (s1 s2 : SDF2) :
    AlignWith2D s1 s2 Bottom = some (Translate2D s2 0 (s1.BoundingBox.Min.Y - s2.BoundingBox.Min.Y)) := by
  simp [AlignWith2D, Left, Right, Top, Bottom, Front, Back]

/-- What `AlignWith2D` returns for the side `Top`. -/
theorem AlignWith2D_Top (s1 s2 : SDF2) :
    AlignWith2D s1 s2 Top = some (Translate2D s2 0 (s1.BoundingBox.Max.Y - s2.BoundingBox.Max.Y)) := by
  simp [AlignWith2D, Left, Right, Top, Bottom, Front, Back]

/-- What `AlignWith3D` returns for the side `Left`. -/
theorem AlignWith3D_Left (s1 s2 : SDF3) :
    AlignWith3D s1 s2 Left = some (Translate3D s2 (s1.BoundingBox.Min.X - s2.BoundingBox.Min.X) 0 0) := by
  simp [AlignWith3D, Left, Right, Top, Bottom, Front, Back]

/-- What `AlignWith3D` returns for the side `Right`. -/
theorem AlignWith3D_Right (s1 s2 : SDF3) :
    AlignWith3D s1 s2 Right = some (Translate3D s2 (s1.BoundingBox.Max.X - s2.BoundingBox.Max.X) 0 0) := by
  simp [AlignWith3D, Left, Right, Top, Bottom, Front, Back]

/-- What `AlignWith3D` returns for the side `Front`. -/
theorem AlignWith3D_Front (s1 s2 : SDF3) :
    AlignWith3D s1 s2 Front = some (Translate3D s2 0 (s1.BoundingBox.Min.Y - s2.BoundingBox.Min.Y) 0) := by
  simp [AlignWith3D, Left, Right, Top, Bottom, Front, Back]

/-- What `AlignWith3D` returns for the side `Back`. -/
theorem AlignWith3D_Back (s1 s2 : SDF3) :
    AlignWith3D s1 s2 Back = some (Translate3D s2 0 (s1.BoundingBox.Max.Y - s2.BoundingBox.Max.Y) 0) := by
  simp [AlignWith3D, Left, Right, Top, Bottom, Front, Back]

/-- What `AlignWith3D` returns for the side `Bottom`. -/
theorem AlignWith3D_Bottom (s1 s2 : SDF3) :
    AlignWith3D s1 s2 Bottom = some (Translate3D s2 0 0 (s1.BoundingBox.Min.Z - s2.BoundingBox.Min.Z)) := by
  simp [AlignWith3D, Left, Right, Top, Bottom, Front, Back]

/-- What `AlignWith3D` returns for the side `Top`. -/
theorem AlignWith3D_Top (s1 s2 : SDF3) :
    AlignWith3D s1 s2 Top = some (Translate3D s2 0 0 (s1.BoundingBox.Max.Z - s2.BoundingBox.Max.Z)) := by
  simp [AlignWith3D, Left, Right, Top, Bottom, Front, Back]

/-- In the plane `AbutWith2D` and `AlignWith2D` return something exactly for the
sides `Left`, `Right`, `Bottom` and `Top`. -/
theorem planar_sides_valid (s1 s2 : SDF2) (side : Side) :
    ((AbutWith2D s1 s2 side).isSome = true ↔
      (side = Left ∨ side = Right ∨ side = Bottom ∨ side = Top)) ∧
    ((AlignWith2D s1 s2 side).isSome = true ↔
      (side = Left ∨ side = Right ∨ side = Bottom ∨ side = Top)) := by
  simp only [AbutWith2D, AlignWith2D]
  constructor <;>
  · split_ifs <;> simp [*]

/-- In space `AbutWith3D` and `AlignWith3D` return something exactly for the six
named sides. -/
theorem spatial_sides_valid (s1 s2 : SDF3) (side : Side) :
    ((AbutWith3D s1 s2 side).isSome = true ↔
      (side = Left ∨ side = Right ∨ side = Front ∨ side = Back ∨ side = Bottom ∨ side = Top)) ∧
    ((AlignWith3D s1 s2 side).isSome = true ↔
      (side = Left ∨ side = Right ∨ side = Front ∨ side = Back ∨ side = Bottom ∨ side = Top)) := by
  simp only [AbutWith3D, AlignWith3D]
  constructor <;>
  · split_ifs <;> simp [*]

/-- Equal offsets give equal translated planar fields. -/
theorem Translate2D_congr (s : SDF2) (x y x2 y2 : ℝ) (hx : x = x2) (hy : y = y2) :
    Translate2D s x y = Translate2D s x2 y2 := by
  rw [hx, hy]

/-- Equal offsets give equal translated spatial fields. -/
theorem Translate3D_congr (s : SDF3) (x y z x2 y2 z2 : ℝ) (hx : x = x2) (hy : y = y2)
    (hz : z = z2) : Translate3D s x y z = Translate3D s x2 y2 z2 := by
  rw [hx, hy, hz]

/-- The bounding box of the example square. -/
theorem exampleSquare_BoundingBox :
    exampleSquare.BoundingBox = ⟨⟨-1, -1⟩, ⟨1, 1⟩⟩ := by
  simp only [exampleSquare, Box2D]
  norm_num

/-- The example cylinder is what the cylinder constructor returns. -/
theorem Cylinder3D_example : Cylinder3D 2 1 0 = Except.ok exampleCylinder := by
  norm_num [Cylinder3D, exampleCylinder]

/-- The bounding box of the example cylinder. -/
theorem exampleCylinder_BoundingBox :
    exampleCylinder.BoundingBox = ⟨⟨-1, -1, -1⟩, ⟨1, 1, 1⟩⟩ := by
  simp only [exampleCylinder, CylinderSDF3.toSDF3]
  norm_num

end Positioning

section Claims

/-- C1: with both rounding radii `0`, `innerRadius r > 0`, `thickness t > 0` and a
planar field whose bounding box has `maxY > minY`, the constructed wrap is
strictly negative at a point `(x, y, z)` exactly when the planar field is
negative at `(px, z)`, with `px = width * (atan2 (y, x) + π/2) / π` and
`width = π * r`, and `r < sqrt (x² + y²) < r + t` and `minY < z < maxY`. -/
theorem WrapAroundCylinder_neg_iff_open_shell (F : SDF2) (r t : ℝ) (hr : 0 < r) (ht : 0 < t)
    (hbb : F.BoundingBox.Min.Y < F.BoundingBox.Max.Y) :
    ∃ w, WrapAroundCylinder F r t 0 0 = some w ∧ w.width = Real.pi * r ∧ ∀ p : V3,
      (w.Evaluate p < 0 ↔
        F.Evaluate ⟨w.width * (Atan2 p.Y p.X + Real.pi / 2) / Real.pi, p.Z⟩ < 0 ∧
        r < Real.sqrt (p.X ^ 2 + p.Y ^ 2) ∧ Real.sqrt (p.X ^ 2 + p.Y ^ 2) < r + t ∧
        F.BoundingBox.Min.Y < p.Z ∧ p.Z < F.BoundingBox.Max.Y) := by
  obtain ⟨w, hw, hspec⟩ := WrapAroundCylinder_eq_some F r t 0 0 hr (by linarith) hbb.le
  refine ⟨w, hw, hspec.2.1, fun p => ?_⟩
  rw [hspec.2.1, pow_two, pow_two]
  exact Evaluate_hard_neg_iff F r t w hspec p

/-- C1, the example scenario: for the rectangle `X ∈ [-π, π]`, `Y ∈ [0, 10]` with
`r = 1` and `t = 1`, the wrap is negative at `(1.5, 0, 5)`. -/
theorem WrapAroundCylinder_neg_iff_open_shell_witness :
    ∃ w, WrapAroundCylinder exampleRectangle 1 1 0 0 = some w ∧ w.Evaluate ⟨1.5, 0, 5⟩ < 0 := by
  obtain ⟨w, hw, hwid, h⟩ := WrapAroundCylinder_neg_iff_open_shell exampleRectangle 1 1
    one_pos one_pos (by rw [exampleRectangle_BoundingBox]; norm_num)
  refine ⟨w, hw, (h ⟨1.5, 0, 5⟩).mpr ?_⟩
  have hs : Real.sqrt ((1.5 : ℝ) ^ 2 + 0 ^ 2) = 1.5 := by
    rw [show ((1.5 : ℝ) ^ 2 + 0 ^ 2) = 1.5 ^ 2 by norm_num]
    exact Real.sqrt_sq (by norm_num)
  have hpi := Real.pi_pos
  refine ⟨?_, ?_, ?_, ?_, ?_⟩
  · rw [exampleRectangle_Evaluate, sdfBox2d_neg_iff, hwid, Atan2_zero_pos _ (by norm_num)]
    simp only []
    have e : Real.pi * 1 * (0 + Real.pi / 2) / Real.pi = Real.pi / 2 := by
      field_simp
      ring
    rw [e, abs_of_pos (by positivity)]
    constructor
    · linarith
    · norm_num
  · simp only [hs]
    norm_num
  · simp only [hs]
    norm_num
  · rw [exampleRectangle_BoundingBox]
    norm_num
  · rw [exampleRectangle_BoundingBox]
    norm_num

/-- C2: for a planar field whose bounding box has `maxY ≥ minY`, an inner radius
`r > 0` and a thickness with `r + t > 0`, and any rounding radii, the bounding
box of the constructed wrap is the bounding box of its outer cylinder, which is
`min = (-(r+t), -(r+t), minY)`, `max = (r+t, r+t, maxY)`. -/
theorem WrapAroundCylinder_BoundingBox (F : SDF2) (r t ri ro : ℝ)
    (hbb : F.BoundingBox.Min.Y ≤ F.BoundingBox.Max.Y) (hr : 0 < r) (hrt : 0 < r + t) :
    ∃ w, WrapAroundCylinder F r t ri ro = some w ∧
      w.BoundingBox = w.outerCylinder.BoundingBox ∧
      w.BoundingBox =
        ⟨⟨-(r + t), -(r + t), F.BoundingBox.Min.Y⟩, ⟨r + t, r + t, F.BoundingBox.Max.Y⟩⟩ := by
  obtain ⟨w, hw, hspec⟩ := WrapAroundCylinder_eq_some F r t ri ro hr hrt hbb
  exact ⟨w, hw, rfl, hspec.2.2.2.2.1⟩

/-- C2, the example scenario: for the rectangle `Y ∈ [0, 10]` with `r = 1` and
`t = 1` the bounding box has radius `2` and `Z ∈ [0, 10]`. -/
theorem WrapAroundCylinder_BoundingBox_witness :
    ∃ w, WrapAroundCylinder exampleRectangle 1 1 0 0 = some w ∧
      w.BoundingBox = ⟨⟨-2, -2, 0⟩, ⟨2, 2, 10⟩⟩ := by
  obtain ⟨w, hw, _, h⟩ := WrapAroundCylinder_BoundingBox exampleRectangle 1 1 0 0
    (by rw [exampleRectangle_BoundingBox]; norm_num) one_pos (by norm_num)
  refine ⟨w, hw, ?_⟩
  rw [h, exampleRectangle_BoundingBox]
  norm_num

/-- C3: for rounding radii `roundInside ≥ 0` and `roundOutside ≥ 0`, every wrap
that `WrapAroundCylinder` returns is at every point at least its outer cylinder,
and is strictly positive at every point strictly outside its bounding box. -/
theorem Evaluate_ge_outerCylinder (F : SDF2) (r t ri ro : ℝ) (hri : 0 ≤ ri) (hro : 0 ≤ ro)
    (w : WrapSylinderSDF) (hw : WrapAroundCylinder F r t ri ro = some w) (p : V3) :
    w.outerCylinder.Evaluate p ≤ w.Evaluate p ∧
    ((p.X < w.BoundingBox.Min.X ∨ w.BoundingBox.Max.X < p.X ∨
      p.Y < w.BoundingBox.Min.Y ∨ w.BoundingBox.Max.Y < p.Y ∨
      p.Z < w.BoundingBox.Min.Z ∨ w.BoundingBox.Max.Z < p.Z) → 0 < w.Evaluate p) := by
  obtain ⟨_, _, _, hspec⟩ := WrapAroundCylinder_some_inv F r t ri ro w hw
  have hle := outerCylinder_le_Evaluate F r t ri ro w hspec hri hro p
  refine ⟨hle, fun hout => lt_of_lt_of_le ?_ hle⟩
  obtain ⟨_, _, ho, _, hbox, _, _⟩ := hspec
  rw [ho, cylinder_pos_iff]
  simp only [WrapSylinderSDF.BoundingBox, hbox] at hout
  have hx := abs_X_le_sqrt p.X p.Y
  have hy := abs_Y_le_sqrt p.X p.Y
  rcases hout with h | h | h | h | h | h
  · exact Or.inl (lt_of_lt_of_le (lt_of_lt_of_le (by linarith) (neg_le_abs p.X)) hx)
  · exact Or.inl (lt_of_lt_of_le (lt_of_lt_of_le h (le_abs_self p.X)) hx)
  · exact Or.inl (lt_of_lt_of_le (lt_of_lt_of_le (by linarith) (neg_le_abs p.Y)) hy)
  · exact Or.inl (lt_of_lt_of_le (lt_of_lt_of_le h (le_abs_self p.Y)) hy)
  · exact Or.inr (Or.inl h)
  · exact Or.inr (Or.inr h)

/-- C3 at a concrete input: the example rectangle wrapped with `r = 1`, `t = 1`
and both rounding radii `1/10`, at the point `(3, 0, 5)` outside the box. -/
theorem Evaluate_ge_outerCylinder_witness :
    ∃ w, WrapAroundCylinder exampleRectangle 1 1 (1 / 10) (1 / 10) = some w ∧
      w.outerCylinder.Evaluate ⟨3, 0, 5⟩ ≤ w.Evaluate ⟨3, 0, 5⟩ ∧
      0 < w.Evaluate ⟨3, 0, 5⟩ := by
  obtain ⟨w, hw, hspec⟩ := WrapAroundCylinder_eq_some exampleRectangle 1 1 (1 / 10) (1 / 10)
    one_pos (by norm_num) (by rw [exampleRectangle_BoundingBox]; norm_num)
  have h := Evaluate_ge_outerCylinder exampleRectangle 1 1 (1 / 10) (1 / 10)
    (by norm_num) (by norm_num) w hw ⟨3, 0, 5⟩
  refine ⟨w, hw, h.1, h.2 (Or.inr (Or.inl ?_))⟩
  rw [WrapSylinderSDF.BoundingBox, hspec.2.2.2.2.1]
  norm_num

/-- C4, as amended: with hard blends, at a point `(0, y, z)` on the negative Y
axis (`y < 0`) the remapped angle is `0`, the planar field is sampled at planar
`X = 0`, and the wrap is the planar value there clipped by the two cylinders. -/
theorem Evaluate_on_negative_Y_axis (F : SDF2) (r t : ℝ) (w : WrapSylinderSDF)
    (hw : WrapAroundCylinder F r t 0 0 = some w) (y z : ℝ) (hy : y < 0) :
    WrapSylinderSDF.angle ⟨0, y, z⟩ = 0 ∧ w.p2 ⟨0, y, z⟩ = ⟨0, z⟩ ∧
    w.Evaluate ⟨0, y, z⟩ =
      max (max (F.Evaluate ⟨0, z⟩) (w.outerCylinder.Evaluate ⟨0, y, z⟩))
        (-(w.innerCylinder.Evaluate ⟨0, y, z⟩)) := by
  obtain ⟨_, _, _, hspec⟩ := WrapAroundCylinder_some_inv F r t 0 0 w hw
  have ha : WrapSylinderSDF.angle ⟨0, y, z⟩ = 0 := by
    simp only [WrapSylinderSDF.angle, Atan2_neg_zero y hy]
    ring
  have hp : w.p2 ⟨0, y, z⟩ = ⟨0, z⟩ := by
    simp only [WrapSylinderSDF.p2, ha, mul_zero, zero_div]
  refine ⟨ha, hp, ?_⟩
  simp only [WrapSylinderSDF.Evaluate, hp, hspec.1, hspec.2.2.2.2.2.1, hspec.2.2.2.2.2.2,
    if_true]

/-- C4 as amended, at a concrete input: the example rectangle wrapped with
`r = 1`, `t = 1`, at the point `(0, -3/2, 5)`. -/
theorem Evaluate_on_negative_Y_axis_witness :
    ∃ w, WrapAroundCylinder exampleRectangle 1 1 0 0 = some w ∧
      w.Evaluate ⟨0, -(3 / 2), 5⟩ =
        max (max (exampleRectangle.Evaluate ⟨0, 5⟩) (w.outerCylinder.Evaluate ⟨0, -(3 / 2), 5⟩))
          (-(w.innerCylinder.Evaluate ⟨0, -(3 / 2), 5⟩)) := by
  obtain ⟨w, hw, _⟩ := WrapAroundCylinder_eq_some exampleRectangle 1 1 0 0
    one_pos (by norm_num) (by rw [exampleRectangle_BoundingBox]; norm_num)
  exact ⟨w, hw, (Evaluate_on_negative_Y_axis exampleRectangle 1 1 w hw (-(3 / 2)) 5
    (by norm_num)).2.2⟩

/-- C4 as stated fails: for the example rectangle wrapped with `r = 1`, `t = 1`
and hard blends, the point `(0, 3/2, 5)` on the positive Y axis has remapped
angle `π`, the planar field is sampled at `X = π` and the wrap is `0` there,
while the planar value at `X = 0` clipped by the two cylinders is `-1/2`. -/
theorem Evaluate_on_positive_Y_axis_counterexample :
    ∃ w, WrapAroundCylinder exampleRectangle 1 1 0 0 = some w ∧
      WrapSylinderSDF.angle ⟨0, 3 / 2, 5⟩ = Real.pi ∧
      w.p2 ⟨0, 3 / 2, 5⟩ = ⟨Real.pi, 5⟩ ∧
      w.Evaluate ⟨0, 3 / 2, 5⟩ = 0 ∧
      max (max (exampleRectangle.Evaluate ⟨0, 5⟩) (w.outerCylinder.Evaluate ⟨0, 3 / 2, 5⟩))
        (-(w.innerCylinder.Evaluate ⟨0, 3 / 2, 5⟩)) = -(1 / 2) ∧
      w.Evaluate ⟨0, 3 / 2, 5⟩ ≠
        max (max (exampleRectangle.Evaluate ⟨0, 5⟩) (w.outerCylinder.Evaluate ⟨0, 3 / 2, 5⟩))
          (-(w.innerCylinder.Evaluate ⟨0, 3 / 2, 5⟩)) := by
  obtain ⟨w, hw, hspec⟩ := WrapAroundCylinder_eq_some exampleRectangle 1 1 0 0
    one_pos (by norm_num) (by rw [exampleRectangle_BoundingBox]; norm_num)
  have hpi := Real.pi_gt_three
  have ha : WrapSylinderSDF.angle ⟨0, 3 / 2, 5⟩ = Real.pi := by
    simp only [WrapSylinderSDF.angle, Atan2_pos_zero (3 / 2) (by norm_num)]
    ring
  have hp : w.p2 ⟨0, 3 / 2, 5⟩ = ⟨Real.pi, 5⟩ := by
    simp only [WrapSylinderSDF.p2, ha, hspec.2.1]
    congr 1
    field_simp
  have ho : w.outerCylinder.Evaluate ⟨0, 3 / 2, 5⟩ = -(1 / 2) := by
    rw [hspec.2.2.1, exampleRectangle_BoundingBox, sdfBox2d_eq_max]
    · simp only [sqrt_zero_add_sq]
      norm_num [abs_of_pos]
    · simp only [sqrt_zero_add_sq]
      norm_num [abs_of_pos]
  have hi : w.innerCylinder.Evaluate ⟨0, 3 / 2, 5⟩ = 1 / 2 := by
    rw [hspec.2.2.2.1, exampleRectangle_BoundingBox, sdfBox2d_eq_max]
    · simp only [sqrt_zero_add_sq]
      norm_num [abs_of_pos]
    · simp only [sqrt_zero_add_sq]
      norm_num [abs_of_pos]
  have hF0 : exampleRectangle.Evaluate ⟨0, 5⟩ = -Real.pi := by
    rw [exampleRectangle_Evaluate, sdfBox2d_eq_max]
    · norm_num
      linarith [Real.pi_le_four]
    · norm_num
  have hF1 : exampleRectangle.Evaluate ⟨Real.pi, 5⟩ = 0 := by
    rw [exampleRectangle_Evaluate, sdfBox2d_eq_max]
    · norm_num [abs_of_pos Real.pi_pos]
    · norm_num [abs_of_pos Real.pi_pos]
  have hE : w.Evaluate ⟨0, 3 / 2, 5⟩ = 0 := by
    simp only [WrapSylinderSDF.Evaluate, hp, hspec.1, hspec.2.2.2.2.2.1, hspec.2.2.2.2.2.2,
      if_true, ho, hi, hF1]
    norm_num
  have hC : max (max (exampleRectangle.Evaluate ⟨0, 5⟩) (w.outerCylinder.Evaluate ⟨0, 3 / 2, 5⟩))
      (-(w.innerCylinder.Evaluate ⟨0, 3 / 2, 5⟩)) = -(1 / 2) := by
    have hm : max (-Real.pi) (-(1 / 2) : ℝ) = -(1 / 2) := max_eq_right (by linarith)
    rw [ho, hi, hF0, hm, max_self]
  refine ⟨w, hw, ha, hp, hE, hC, ?_⟩
  rw [hE, hC]
  norm_num

/-- C5: the code adds `π/2` to the angle and never brings the sum back into
`(-π, π]`.  For the example rectangle wrapped with `r = 1`, `t = 1`, the point
`(-1, 0, 0)` has `atan2 (0, -1) = π` and the remapped angle `3π/2`, which exceeds
`π`; `Evaluate` samples the planar field there at `X = 3π/2`, which exceeds
`width = π` and lies outside the interval `-r/2 < x < r/2` that the doc comment of
`WrapAroundCylinder` gives for the sampled points. -/
theorem planar_X_beyond_width :
    ∃ w, WrapAroundCylinder exampleRectangle 1 1 0 0 = some w ∧
      Atan2 0 (-1) = Real.pi ∧
      WrapSylinderSDF.angle ⟨-1, 0, 0⟩ = 3 * Real.pi / 2 ∧
      ¬ (WrapSylinderSDF.angle ⟨-1, 0, 0⟩ ≤ Real.pi) ∧
      w.width = Real.pi ∧ (w.p2 ⟨-1, 0, 0⟩).X = 3 * Real.pi / 2 ∧
      ¬ ((w.p2 ⟨-1, 0, 0⟩).X ≤ w.width) ∧
      ¬ ((w.p2 ⟨-1, 0, 0⟩).X < 1 / 2) := by
  obtain ⟨w, hw, hspec⟩ := WrapAroundCylinder_eq_some exampleRectangle 1 1 0 0
    one_pos (by norm_num) (by rw [exampleRectangle_BoundingBox]; norm_num)
  have hpi := Real.pi_gt_three
  have hat : Atan2 0 (-1) = Real.pi := Atan2_zero_neg (-1) (by norm_num)
  have ha : WrapSylinderSDF.angle ⟨-1, 0, 0⟩ = 3 * Real.pi / 2 := by
    simp only [WrapSylinderSDF.angle, hat]
    ring
  have hwid : w.width = Real.pi := by
    rw [hspec.2.1, mul_one]
  have hX : (w.p2 ⟨-1, 0, 0⟩).X = 3 * Real.pi / 2 := by
    simp only [WrapSylinderSDF.p2, ha, hwid]
    field_simp
    ring
  refine ⟨w, hw, hat, ha, ?_, hwid, hX, ?_, ?_⟩
  · rw [ha]
    intro h
    linarith
  · rw [hX, hwid]
    intro h
    linarith
  · rw [hX]
    intro h
    linarith

/-- C6: for every wrap that `WrapAroundCylinder` returns for an inner radius `r`,
the stored width is `π * r`; the planar X sampled by `Evaluate` at a point
`(x, y, z)` is `r * (atan2 (y, x) + π/2)`; for two points whose angles are
`θ1 ≤ θ2` the difference of the sampled planar X is the arc length
`r * (θ2 - θ1)`; the full inner circumference `2 * π * r` is `2 * width`; and the
points of the inner cylinder at any height sample every planar X of the
interval `(-width/2, 3·width/2]`, whose length is `2 * width`. -/
theorem lengths_preserved_on_inner_surface (F : SDF2) (r t ri ro : ℝ) (w : WrapSylinderSDF)
    (hw : WrapAroundCylinder F r t ri ro = some w) :
    w.width = Real.pi * r ∧
    (∀ p : V3, (w.p2 p).X = r * (Atan2 p.Y p.X + Real.pi / 2)) ∧
    (∀ p q : V3, Atan2 p.Y p.X ≤ Atan2 q.Y q.X →
      (w.p2 q).X - (w.p2 p).X = r * (Atan2 q.Y q.X - Atan2 p.Y p.X)) ∧
    2 * Real.pi * r = 2 * w.width ∧
    (∀ X z : ℝ, -(w.width / 2) < X → X ≤ 3 * w.width / 2 →
      ∃ p : V3, Real.sqrt (p.X ^ 2 + p.Y ^ 2) = r ∧ p.Z = z ∧ (w.p2 p).X = X) := by
  obtain ⟨hr, _, _, hspec⟩ := WrapAroundCylinder_some_inv F r t ri ro w hw
  have hpi := Real.pi_pos
  have hwid := hspec.2.1
  have hX : ∀ p : V3, (w.p2 p).X = r * (Atan2 p.Y p.X + Real.pi / 2) := by
    intro p
    simp only [WrapSylinderSDF.p2, WrapSylinderSDF.angle, hwid]
    field_simp
    ring
  refine ⟨hwid, hX, ?_, ?_, ?_⟩
  · intro p q _
    rw [hX, hX]
    ring
  · rw [hwid]
    ring
  · intro X z h1 h2
    rw [hwid] at h1 h2
    have hθ : X / r - Real.pi / 2 ∈ Set.Ioc (-Real.pi) Real.pi := by
      constructor
      · have : -(Real.pi / 2) < X / r := by
          rw [lt_div_iff₀ hr]
          linarith
        linarith
      · have : X / r ≤ 3 * Real.pi / 2 := by
          rw [div_le_iff₀ hr]
          linarith
        linarith
    have harg : Atan2 (r * Real.sin (X / r - Real.pi / 2)) (r * Real.cos (X / r - Real.pi / 2))
        = X / r - Real.pi / 2 := by
      exact Atan2_polar r hr _ hθ
    refine ⟨⟨r * Real.cos (X / r - Real.pi / 2), r * Real.sin (X / r - Real.pi / 2), z⟩,
      ?_, rfl, ?_⟩
    · have e : (r * Real.cos (X / r - Real.pi / 2)) ^ 2 + (r * Real.sin (X / r - Real.pi / 2)) ^ 2
          = r ^ 2 := by
        have := Real.sin_sq_add_cos_sq (X / r - Real.pi / 2)
        linear_combination r ^ 2 * this
      simp only [e]
      exact Real.sqrt_sq hr.le
    · rw [hX]
      simp only [harg]
      field_simp
      ring

/-- C6 at concrete inputs: the example rectangle wrapped with `r = 2` stores the
width `2π`, and wrapped with `r = 1` stores the width `π`. -/
theorem lengths_preserved_on_inner_surface_witness :
    (∃ w, WrapAroundCylinder exampleRectangle 2 1 0 0 = some w ∧ w.width = 2 * Real.pi) ∧
    (∃ w, WrapAroundCylinder exampleRectangle 1 1 0 0 = some w ∧ w.width = Real.pi) := by
  obtain ⟨w2, hw2, _⟩ := WrapAroundCylinder_eq_some exampleRectangle 2 1 0 0
    (by norm_num) (by norm_num) (by rw [exampleRectangle_BoundingBox]; norm_num)
  obtain ⟨w1, hw1, _⟩ := WrapAroundCylinder_eq_some exampleRectangle 1 1 0 0
    one_pos (by norm_num) (by rw [exampleRectangle_BoundingBox]; norm_num)
  refine ⟨⟨w2, hw2, ?_⟩, ⟨w1, hw1, ?_⟩⟩
  · rw [(lengths_preserved_on_inner_surface exampleRectangle 2 1 0 0 w2 hw2).1]
    ring
  · rw [(lengths_preserved_on_inner_surface exampleRectangle 1 1 0 0 w1 hw1).1]
    ring

/-- C7: with the hard outer blend (`roundOutside = 0`) and `roundInside ≥ 0`,
every wrap that `WrapAroundCylinder` returns is strictly positive at every point
whose distance from the Z axis exceeds `innerRadius + thickness` and whose `z`
lies in the height span `[minY, maxY]`. -/
theorem outer_containment (F : SDF2) (r t ri : ℝ) (hri : 0 ≤ ri) (w : WrapSylinderSDF)
    (hw : WrapAroundCylinder F r t ri 0 = some w) (p : V3)
    (hout : r + t < Real.sqrt (p.X ^ 2 + p.Y ^ 2))
    (hz1 : F.BoundingBox.Min.Y ≤ p.Z) (hz2 : p.Z ≤ F.BoundingBox.Max.Y) :
    0 < w.Evaluate p := by
  have _ := hz1
  have _ := hz2
  obtain ⟨_, _, _, hspec⟩ := WrapAroundCylinder_some_inv F r t ri 0 w hw
  refine lt_of_lt_of_le ?_ (outerCylinder_le_Evaluate F r t ri 0 w hspec hri (le_refl _) p)
  rw [hspec.2.2.1, cylinder_pos_iff]
  rw [pow_two, pow_two] at hout
  exact Or.inl hout

/-- C7 at a concrete input: the example rectangle wrapped with `r = 1`, `t = 1`,
`roundInside = 1/10`, at the point `(3, 0, 5)`. -/
theorem outer_containment_witness :
    ∃ w, WrapAroundCylinder exampleRectangle 1 1 (1 / 10) 0 = some w ∧
      0 < w.Evaluate ⟨3, 0, 5⟩ := by
  obtain ⟨w, hw, _⟩ := WrapAroundCylinder_eq_some exampleRectangle 1 1 (1 / 10) 0
    one_pos (by norm_num) (by rw [exampleRectangle_BoundingBox]; norm_num)
  refine ⟨w, hw, outer_containment exampleRectangle 1 1 (1 / 10) (by norm_num) w hw ⟨3, 0, 5⟩
    ?_ ?_ ?_⟩
  · have hs : Real.sqrt ((3 : ℝ) ^ 2 + 0 ^ 2) = 3 := by
      rw [show ((3 : ℝ) ^ 2 + 0 ^ 2) = 3 ^ 2 by norm_num]
      exact Real.sqrt_sq (by norm_num)
    simp only [hs]
    norm_num
  · rw [exampleRectangle_BoundingBox]
    norm_num
  · rw [exampleRectangle_BoundingBox]
    norm_num

/-- C8, as amended: with the hard inner blend (`roundInside = 0`) and
`roundOutside ≥ 0`, every wrap that `WrapAroundCylinder` returns is strictly
positive at every point whose distance from the Z axis is below `innerRadius`
and whose `z` lies strictly inside the height span (`minY < z < maxY`); with `z`
in the closed span `[minY, maxY]` it is not negative. -/
theorem inner_hollowing (F : SDF2) (r t ro : ℝ) (hro : 0 ≤ ro) (w : WrapSylinderSDF)
    (hw : WrapAroundCylinder F r t 0 ro = some w) (p : V3)
    (hin : Real.sqrt (p.X ^ 2 + p.Y ^ 2) < r) :
    (F.BoundingBox.Min.Y < p.Z ∧ p.Z < F.BoundingBox.Max.Y → 0 < w.Evaluate p) ∧
    (F.BoundingBox.Min.Y ≤ p.Z ∧ p.Z ≤ F.BoundingBox.Max.Y → 0 ≤ w.Evaluate p) := by
  obtain ⟨_, _, _, hspec⟩ := WrapAroundCylinder_some_inv F r t 0 ro w hw
  have hle := neg_innerCylinder_le_Evaluate F r t 0 ro w hspec (le_refl _) p
  have _ := hro
  rw [pow_two, pow_two] at hin
  constructor
  · rintro ⟨h1, h2⟩
    have hneg : w.innerCylinder.Evaluate p < 0 := by
      rw [hspec.2.2.2.1, cylinder_neg_iff]
      exact ⟨hin, h1, h2⟩
    linarith
  · rintro ⟨h1, h2⟩
    have hnpos : ¬ (0 < w.innerCylinder.Evaluate p) := by
      rw [hspec.2.2.2.1, cylinder_pos_iff]
      rintro (h | h | h) <;> linarith
    linarith [not_lt.mp hnpos]

/-- C8 as amended, at a concrete input: the example rectangle wrapped with
`r = 1`, `t = 1`, `roundOutside = 1/10`, at the point `(1/2, 0, 5)` of the bore. -/
theorem inner_hollowing_witness :
    ∃ w, WrapAroundCylinder exampleRectangle 1 1 0 (1 / 10) = some w ∧
      0 < w.Evaluate ⟨1 / 2, 0, 5⟩ := by
  obtain ⟨w, hw, _⟩ := WrapAroundCylinder_eq_some exampleRectangle 1 1 0 (1 / 10)
    one_pos (by norm_num) (by rw [exampleRectangle_BoundingBox]; norm_num)
  have hs : Real.sqrt ((1 / 2 : ℝ) ^ 2 + 0 ^ 2) = 1 / 2 := by
    rw [show ((1 / 2 : ℝ) ^ 2 + 0 ^ 2) = (1 / 2) ^ 2 by norm_num]
    exact Real.sqrt_sq (by norm_num)
  refine ⟨w, hw, (inner_hollowing exampleRectangle 1 1 (1 / 10) (by norm_num) w hw
    ⟨1 / 2, 0, 5⟩ ?_).1 ?_⟩
  · simp only [hs]
    norm_num
  · rw [exampleRectangle_BoundingBox]
    norm_num

/-- C8 as stated fails on an end plane: for the example rectangle wrapped with
`r = 1`, `t = 1` and hard blends, the point `(0, 0, 0)` has distance `0 < 1` from
the Z axis and `z = 0` in the height span `[0, 10]`, and the wrap is `0` there,
not strictly positive. -/
theorem inner_hollowing_counterexample :
    ∃ w, WrapAroundCylinder exampleRectangle 1 1 0 0 = some w ∧
      Real.sqrt ((0 : ℝ) ^ 2 + 0 ^ 2) < 1 ∧
      exampleRectangle.BoundingBox.Min.Y ≤ 0 ∧ (0 : ℝ) ≤ exampleRectangle.BoundingBox.Max.Y ∧
      w.Evaluate ⟨0, 0, 0⟩ = 0 ∧ ¬ (0 < w.Evaluate ⟨0, 0, 0⟩) := by
  obtain ⟨w, hw, hspec⟩ := WrapAroundCylinder_eq_some exampleRectangle 1 1 0 0
    one_pos (by norm_num) (by rw [exampleRectangle_BoundingBox]; norm_num)
  have hpi := Real.pi_pos
  have hp : w.p2 ⟨0, 0, 0⟩ = ⟨Real.pi / 2, 0⟩ := by
    simp only [WrapSylinderSDF.p2, WrapSylinderSDF.angle, Atan2_zero_zero, hspec.2.1]
    congr 1
    field_simp
    ring
  have ho : w.outerCylinder.Evaluate ⟨0, 0, 0⟩ = 0 := by
    rw [hspec.2.2.1, exampleRectangle_BoundingBox, sdfBox2d_eq_max]
    · simp only [sqrt_zero_add_sq]
      norm_num [abs_of_pos]
    · simp only [sqrt_zero_add_sq]
      norm_num [abs_of_pos]
  have hi : w.innerCylinder.Evaluate ⟨0, 0, 0⟩ = 0 := by
    rw [hspec.2.2.2.1, exampleRectangle_BoundingBox, sdfBox2d_eq_max]
    · simp only [sqrt_zero_add_sq]
      norm_num [abs_of_pos]
    · simp only [sqrt_zero_add_sq]
      norm_num [abs_of_pos]
  have hF : exampleRectangle.Evaluate ⟨Real.pi / 2, 0⟩ = 0 := by
    rw [exampleRectangle_Evaluate, sdfBox2d_eq_max]
    · have e : |Real.pi / 2| = Real.pi / 2 := abs_of_pos (by positivity)
      norm_num [e]
      linarith
    · norm_num
  have hE : w.Evaluate ⟨0, 0, 0⟩ = 0 := by
    simp only [WrapSylinderSDF.Evaluate, hp, hspec.1, hspec.2.2.2.2.2.1, hspec.2.2.2.2.2.2,
      if_true, ho, hi, hF]
    norm_num
  refine ⟨w, hw, ?_, ?_, ?_, hE, ?_⟩
  · norm_num
  · rw [exampleRectangle_BoundingBox]
  · rw [exampleRectangle_BoundingBox]
    norm_num
  · rw [hE]
    exact lt_irrefl 0

/-- C9, as amended: for every inner radius `≤ 0`, and for every thickness `≤ 0`
with `innerRadius + thickness ≤ 0`, one of the two cylinder constructors fails
and `WrapAroundCylinder` returns no wrap. -/
theorem WrapAroundCylinder_fails (F : SDF2) (r t ri ro : ℝ)
    (h : r ≤ 0 ∨ (t ≤ 0 ∧ r + t ≤ 0)) :
    ((Cylinder3D (F.BoundingBox.Max.Y - F.BoundingBox.Min.Y) r 0).toOption = none ∨
      (Cylinder3D (F.BoundingBox.Max.Y - F.BoundingBox.Min.Y) (r + t) 0).toOption = none) ∧
    WrapAroundCylinder F r t ri ro = none := by
  rcases h with h | ⟨_, h⟩
  · refine ⟨Or.inl ?_, WrapAroundCylinder_eq_none F r t ri ro (Or.inl h)⟩
    simp [Cylinder3D, h, Except.toOption]
  · refine ⟨Or.inr ?_, WrapAroundCylinder_eq_none F r t ri ro (Or.inr (Or.inl h))⟩
    simp [Cylinder3D, h, Except.toOption]

/-- C9 as amended, at a concrete input: the example rectangle with inner radius
`0` and thickness `1`. -/
theorem WrapAroundCylinder_fails_witness :
    WrapAroundCylinder exampleRectangle 0 1 0 0 = none :=
  (WrapAroundCylinder_fails exampleRectangle 0 1 0 0 (Or.inl (le_refl 0))).2

/-- C9 as stated fails: the thickness `-1 ≤ 0` with inner radius `2` is not
rejected; for the example rectangle a wrap is returned, with an outer cylinder
of radius `1` inside the inner cylinder of radius `2`. -/
theorem WrapAroundCylinder_fails_counterexample :
    (-1 : ℝ) ≤ 0 ∧ ∃ w, WrapAroundCylinder exampleRectangle 2 (-1) 0 0 = some w ∧
      w.BoundingBox = ⟨⟨-1, -1, 0⟩, ⟨1, 1, 10⟩⟩ := by
  obtain ⟨w, hw, hspec⟩ := WrapAroundCylinder_eq_some exampleRectangle 2 (-1) 0 0
    (by norm_num) (by norm_num) (by rw [exampleRectangle_BoundingBox]; norm_num)
  refine ⟨by norm_num, w, hw, ?_⟩
  rw [WrapSylinderSDF.BoundingBox, hspec.2.2.2.2.1, exampleRectangle_BoundingBox]
  norm_num

/-- C10: with the hard inner blend, for every planar field and radii for which
`WrapAroundCylinder` returns a wrap and every point `p`, the wraps `W k` built
with outer rounding `k` satisfy `0 ≤ (W k).Evaluate p - (W 0).Evaluate p ≤ k / 4`
for `k > 0`, and `(W k).Evaluate p` converges to the hard-blend value
`(W 0).Evaluate p` as `k → 0+`. -/
theorem rounded_outer_blend_converges (F : SDF2) (r t : ℝ) (w0 : WrapSylinderSDF)
    (hw0 : WrapAroundCylinder F r t 0 0 = some w0) (p : V3) :
    ∃ W : ℝ → WrapSylinderSDF, (∀ k, WrapAroundCylinder F r t 0 k = some (W k)) ∧ W 0 = w0 ∧
      (∀ k, 0 < k → 0 ≤ (W k).Evaluate p - (W 0).Evaluate p ∧
        (W k).Evaluate p - (W 0).Evaluate p ≤ k / 4) ∧
      Filter.Tendsto (fun k => (W k).Evaluate p) (nhdsWithin 0 (Set.Ioi 0))
        (nhds ((W 0).Evaluate p)) := by
  obtain ⟨hr, hrt, hbb, _⟩ := WrapAroundCylinder_some_inv F r t 0 0 w0 hw0
  choose W hW hspec using fun k => WrapAroundCylinder_eq_some F r t 0 k hr hrt hbb
  have h0 : W 0 = w0 := by
    have := hW 0
    rw [hw0] at this
    exact (Option.some.inj this).symm
  have hbound : ∀ k, 0 < k → 0 ≤ (W k).Evaluate p - (W 0).Evaluate p ∧
      (W k).Evaluate p - (W 0).Evaluate p ≤ k / 4 := by
    intro k hk
    rw [Evaluate_eq F r t 0 k (W k) (hspec k) p, Evaluate_eq F r t 0 0 (W 0) (hspec 0) p]
    rw [(hspec k).2.2.1, (hspec 0).2.2.1, (hspec k).2.2.2.1, (hspec 0).2.2.2.1]
    simp only [if_true, if_neg hk.ne.symm]
    exact hard_inner_rounded_outer_bounds k hk _ _ _
  refine ⟨W, hW, h0, hbound, ?_⟩
  have hup : Filter.Tendsto (fun k : ℝ => (W 0).Evaluate p + k / 4) (nhdsWithin 0 (Set.Ioi 0))
      (nhds ((W 0).Evaluate p)) := by
    have hc : Continuous (fun k : ℝ => (W 0).Evaluate p + k / 4) := by continuity
    have := hc.tendsto 0
    simp only [zero_div, add_zero] at this
    exact this.mono_left nhdsWithin_le_nhds
  refine tendsto_of_tendsto_of_tendsto_of_le_of_le' tendsto_const_nhds hup ?_ ?_
  · exact eventually_nhdsWithin_of_forall fun k hk => by linarith [(hbound k hk).1]
  · exact eventually_nhdsWithin_of_forall fun k hk => by linarith [(hbound k hk).2]

/-- C10 at a concrete input: the example rectangle wrapped with `r = 1`, `t = 1`
and outer rounding `1/10`, at the point `(2, 0, 5)` on the outer surface. -/
theorem rounded_outer_blend_converges_witness :
    ∃ w0 wk, WrapAroundCylinder exampleRectangle 1 1 0 0 = some w0 ∧
      WrapAroundCylinder exampleRectangle 1 1 0 (1 / 10) = some wk ∧
      0 ≤ wk.Evaluate ⟨2, 0, 5⟩ - w0.Evaluate ⟨2, 0, 5⟩ ∧
      wk.Evaluate ⟨2, 0, 5⟩ - w0.Evaluate ⟨2, 0, 5⟩ ≤ 1 / 10 / 4 := by
  obtain ⟨w0, hw0, _⟩ := WrapAroundCylinder_eq_some exampleRectangle 1 1 0 0
    one_pos (by norm_num) (by rw [exampleRectangle_BoundingBox]; norm_num)
  obtain ⟨W, hW, h0, hb, _⟩ := rounded_outer_blend_converges exampleRectangle 1 1 w0 hw0
    ⟨2, 0, 5⟩
  have h := hb (1 / 10) (by norm_num)
  rw [h0] at h
  exact ⟨w0, W (1 / 10), hw0, hW (1 / 10), h.1, h.2⟩

/-- C11: what `AbutWith2D` does with the bounding boxes on each side.  For `Left`
and `Right` it places `s2` against that side of `s1` as its comments state.  For
`Bottom` it moves the bottom side of `s2` to the top side of `s1`, and for `Top`
the top side of `s2` to the bottom side of `s1`: the reverse of what its
comments state.  For two squares `[-1, 1]²` the side `Bottom` gives a box with
`Max.Y = 3`, not `-1`, and the side `Top` a box with `Min.Y = -3`, not `1`. -/
theorem AbutWith2D_Bottom_Top_swapped :
    (∀ s1 s2 : SDF2, ∃ R, AbutWith2D s1 s2 Left = some R ∧
      R.BoundingBox.Max.X = s1.BoundingBox.Min.X) ∧
    (∀ s1 s2 : SDF2, ∃ R, AbutWith2D s1 s2 Right = some R ∧
      R.BoundingBox.Min.X = s1.BoundingBox.Max.X) ∧
    (∀ s1 s2 : SDF2, ∃ R, AbutWith2D s1 s2 Bottom = some R ∧
      R.BoundingBox.Min.Y = s1.BoundingBox.Max.Y) ∧
    (∀ s1 s2 : SDF2, ∃ R, AbutWith2D s1 s2 Top = some R ∧
      R.BoundingBox.Max.Y = s1.BoundingBox.Min.Y) ∧
    (∃ R, AbutWith2D exampleSquare exampleSquare Bottom = some R ∧
      R.BoundingBox.Min.Y = 1 ∧ R.BoundingBox.Max.Y = 3 ∧
      exampleSquare.BoundingBox.Min.Y = -1 ∧
      R.BoundingBox.Max.Y ≠ exampleSquare.BoundingBox.Min.Y) ∧
    (∃ R, AbutWith2D exampleSquare exampleSquare Top = some R ∧
      R.BoundingBox.Min.Y = -3 ∧ R.BoundingBox.Max.Y = -1 ∧
      exampleSquare.BoundingBox.Max.Y = 1 ∧
      R.BoundingBox.Min.Y ≠ exampleSquare.BoundingBox.Max.Y) := by
  refine ⟨?_, ?_, ?_, ?_, ?_, ?_⟩
  · intro s1 s2
    refine ⟨_, AbutWith2D_Left s1 s2, ?_⟩
    simp only [Translate2D_BoundingBox]
    ring
  · intro s1 s2
    refine ⟨_, AbutWith2D_Right s1 s2, ?_⟩
    simp only [Translate2D_BoundingBox]
    ring
  · intro s1 s2
    refine ⟨_, AbutWith2D_Bottom s1 s2, ?_⟩
    simp only [Translate2D_BoundingBox]
    ring
  · intro s1 s2
    refine ⟨_, AbutWith2D_Top s1 s2, ?_⟩
    simp only [Translate2D_BoundingBox]
    ring
  · refine ⟨_, AbutWith2D_Bottom exampleSquare exampleSquare, ?_, ?_, ?_, ?_⟩
    · simp only [Translate2D_BoundingBox, exampleSquare_BoundingBox]
      norm_num
    · simp only [Translate2D_BoundingBox, exampleSquare_BoundingBox]
      norm_num
    · simp only [exampleSquare_BoundingBox]
    · simp only [Translate2D_BoundingBox, exampleSquare_BoundingBox]
      norm_num
  · refine ⟨_, AbutWith2D_Top exampleSquare exampleSquare, ?_, ?_, ?_, ?_⟩
    · simp only [Translate2D_BoundingBox, exampleSquare_BoundingBox]
      norm_num
    · simp only [Translate2D_BoundingBox, exampleSquare_BoundingBox]
      norm_num
    · simp only [exampleSquare_BoundingBox]
    · simp only [Translate2D_BoundingBox, exampleSquare_BoundingBox]
      norm_num

/-- C12: `AbutWith3D` places the bounding box of `s2` against the given side of
the bounding box of `s1`, for all six sides: `Left` gives `Max.X = bb1.Min.X`,
`Right` gives `Min.X = bb1.Max.X`, `Front` gives `Max.Y = bb1.Min.Y`, `Back` gives
`Min.Y = bb1.Max.Y`, `Bottom` gives `Max.Z = bb1.Min.Z` and `Top` gives
`Min.Z = bb1.Max.Z`, for the bounding box of the result. -/
theorem AbutWith3D_abuts (s1 s2 : SDF3) :
    (∃ R, AbutWith3D s1 s2 Left = some R ∧
      R.BoundingBox.Max.X = s1.BoundingBox.Min.X) ∧
    (∃ R, AbutWith3D s1 s2 Right = some R ∧
      R.BoundingBox.Min.X = s1.BoundingBox.Max.X) ∧
    (∃ R, AbutWith3D s1 s2 Front = some R ∧
      R.BoundingBox.Max.Y = s1.BoundingBox.Min.Y) ∧
    (∃ R, AbutWith3D s1 s2 Back = some R ∧
      R.BoundingBox.Min.Y = s1.BoundingBox.Max.Y) ∧
    (∃ R, AbutWith3D s1 s2 Bottom = some R ∧
      R.BoundingBox.Max.Z = s1.BoundingBox.Min.Z) ∧
    (∃ R, AbutWith3D s1 s2 Top = some R ∧
      R.BoundingBox.Min.Z = s1.BoundingBox.Max.Z) := by
  refine ⟨?_, ?_, ?_, ?_, ?_, ?_⟩
  · refine ⟨_, AbutWith3D_Left s1 s2, ?_⟩
    simp only [Translate3D_BoundingBox]
    ring
  · refine ⟨_, AbutWith3D_Right s1 s2, ?_⟩
    simp only [Translate3D_BoundingBox]
    ring
  · refine ⟨_, AbutWith3D_Front s1 s2, ?_⟩
    simp only [Translate3D_BoundingBox]
    ring
  · refine ⟨_, AbutWith3D_Back s1 s2, ?_⟩
    simp only [Translate3D_BoundingBox]
    ring
  · refine ⟨_, AbutWith3D_Bottom s1 s2, ?_⟩
    simp only [Translate3D_BoundingBox]
    ring
  · refine ⟨_, AbutWith3D_Top s1 s2, ?_⟩
    simp only [Translate3D_BoundingBox]
    ring

/-- C13: `AlignWith2D` and `AlignWith3D` make the given side of the bounding box
of `s2` coincide with the same side of the bounding box of `s1` (`Left`: `Min.X`,
`Right`: `Max.X`, `Front`: `Min.Y`, `Back`: `Max.Y`, `Bottom`: `Min.Z` in space and
`Min.Y` in the plane, `Top`: `Max.Z` in space and `Max.Y` in the plane), and
aligning the result again is a translation by zero, which changes nothing. -/
theorem AlignWith_aligns :
    (∀ s1 s2 : SDF2, ∃ R, AlignWith2D s1 s2 Left = some R ∧
      R.BoundingBox.Min.X = s1.BoundingBox.Min.X ∧
      AlignWith2D s1 R Left = some (Translate2D R 0 0) ∧ Translate2D R 0 0 = R) ∧
    (∀ s1 s2 : SDF2, ∃ R, AlignWith2D s1 s2 Right = some R ∧
      R.BoundingBox.Max.X = s1.BoundingBox.Max.X ∧
      AlignWith2D s1 R Right = some (Translate2D R 0 0) ∧ Translate2D R 0 0 = R) ∧
    (∀ s1 s2 : SDF2, ∃ R, AlignWith2D s1 s2 Bottom = some R ∧
      R.BoundingBox.Min.Y = s1.BoundingBox.Min.Y ∧
      AlignWith2D s1 R Bottom = some (Translate2D R 0 0) ∧ Translate2D R 0 0 = R) ∧
    (∀ s1 s2 : SDF2, ∃ R, AlignWith2D s1 s2 Top = some R ∧
      R.BoundingBox.Max.Y = s1.BoundingBox.Max.Y ∧
      AlignWith2D s1 R Top = some (Translate2D R 0 0) ∧ Translate2D R 0 0 = R) ∧
    (∀ s1 s2 : SDF3, ∃ R, AlignWith3D s1 s2 Left = some R ∧
      R.BoundingBox.Min.X = s1.BoundingBox.Min.X ∧
      AlignWith3D s1 R Left = some (Translate3D R 0 0 0) ∧ Translate3D R 0 0 0 = R) ∧
    (∀ s1 s2 : SDF3, ∃ R, AlignWith3D s1 s2 Right = some R ∧
      R.BoundingBox.Max.X = s1.BoundingBox.Max.X ∧
      AlignWith3D s1 R Right = some (Translate3D R 0 0 0) ∧ Translate3D R 0 0 0 = R) ∧
    (∀ s1 s2 : SDF3, ∃ R, AlignWith3D s1 s2 Front = some R ∧
      R.BoundingBox.Min.Y = s1.BoundingBox.Min.Y ∧
      AlignWith3D s1 R Front = some (Translate3D R 0 0 0) ∧ Translate3D R 0 0 0 = R) ∧
    (∀ s1 s2 : SDF3, ∃ R, AlignWith3D s1 s2 Back = some R ∧
      R.BoundingBox.Max.Y = s1.BoundingBox.Max.Y ∧
      AlignWith3D s1 R Back = some (Translate3D R 0 0 0) ∧ Translate3D R 0 0 0 = R) ∧
    (∀ s1 s2 : SDF3, ∃ R, AlignWith3D s1 s2 Bottom = some R ∧
      R.BoundingBox.Min.Z = s1.BoundingBox.Min.Z ∧
      AlignWith3D s1 R Bottom = some (Translate3D R 0 0 0) ∧ Translate3D R 0 0 0 = R) ∧
    (∀ s1 s2 : SDF3, ∃ R, AlignWith3D s1 s2 Top = some R ∧
      R.BoundingBox.Max.Z = s1.BoundingBox.Max.Z ∧
      AlignWith3D s1 R Top = some (Translate3D R 0 0 0) ∧ Translate3D R 0 0 0 = R) := by
  refine ⟨?_, ?_, ?_, ?_, ?_, ?_, ?_, ?_, ?_, ?_⟩
  · intro s1 s2
    refine ⟨_, AlignWith2D_Left s1 s2, ?_, ?_, Translate2D_zero _⟩
    · simp only [Translate2D_BoundingBox]
      ring
    · rw [AlignWith2D_Left]
      exact congrArg some (Translate2D_congr _ _ _ _ _ (by simp only [Translate2D_BoundingBox]; ring) rfl)
  · intro s1 s2
    refine ⟨_, AlignWith2D_Right s1 s2, ?_, ?_, Translate2D_zero _⟩
    · simp only [Translate2D_BoundingBox]
      ring
    · rw [AlignWith2D_Right]
      exact congrArg some (Translate2D_congr _ _ _ _ _ (by simp only [Translate2D_BoundingBox]; ring) rfl)
  · intro s1 s2
    refine ⟨_, AlignWith2D_Bottom s1 s2, ?_, ?_, Translate2D_zero _⟩
    · simp only [Translate2D_BoundingBox]
      ring
    · rw [AlignWith2D_Bottom]
      exact congrArg some (Translate2D_congr _ _ _ _ _ rfl (by simp only [Translate2D_BoundingBox]; ring))
  · intro s1 s2
    refine ⟨_, AlignWith2D_Top s1 s2, ?_, ?_, Translate2D_zero _⟩
    · simp only [Translate2D_BoundingBox]
      ring
    · rw [AlignWith2D_Top]
      exact congrArg some (Translate2D_congr _ _ _ _ _ rfl (by simp only [Translate2D_BoundingBox]; ring))
  · intro s1 s2
    refine ⟨_, AlignWith3D_Left s1 s2, ?_, ?_, Translate3D_zero _⟩
    · simp only [Translate3D_BoundingBox]
      ring
    · rw [AlignWith3D_Left]
      exact congrArg some (Translate3D_congr _ _ _ _ _ _ _ (by simp only [Translate3D_BoundingBox]; ring) rfl rfl)
  · intro s1 s2
    refine ⟨_, AlignWith3D_Right s1 s2, ?_, ?_, Translate3D_zero _⟩
    · simp only [Translate3D_BoundingBox]
      ring
    · rw [AlignWith3D_Right]
      exact congrArg some (Translate3D_congr _ _ _ _ _ _ _ (by simp only [Translate3D_BoundingBox]; ring) rfl rfl)
  · intro s1 s2
    refine ⟨_, AlignWith3D_Front s1 s2, ?_, ?_, Translate3D_zero _⟩
    · simp only [Translate3D_BoundingBox]
      ring
    · rw [AlignWith3D_Front]
      exact congrArg some (Translate3D_congr _ _ _ _ _ _ _ rfl (by simp only [Translate3D_BoundingBox]; ring) rfl)
  · intro s1 s2
    refine ⟨_, AlignWith3D_Back s1 s2, ?_, ?_, Translate3D_zero _⟩
    · simp only [Translate3D_BoundingBox]
      ring
    · rw [AlignWith3D_Back]
      exact congrArg some (Translate3D_congr _ _ _ _ _ _ _ rfl (by simp only [Translate3D_BoundingBox]; ring) rfl)
  · intro s1 s2
    refine ⟨_, AlignWith3D_Bottom s1 s2, ?_, ?_, Translate3D_zero _⟩
    · simp only [Translate3D_BoundingBox]
      ring
    · rw [AlignWith3D_Bottom]
      exact congrArg some (Translate3D_congr _ _ _ _ _ _ _ rfl rfl (by simp only [Translate3D_BoundingBox]; ring))
  · intro s1 s2
    refine ⟨_, AlignWith3D_Top s1 s2, ?_, ?_, Translate3D_zero _⟩
    · simp only [Translate3D_BoundingBox]
      ring
    · rw [AlignWith3D_Top]
      exact congrArg some (Translate3D_congr _ _ _ _ _ _ _ rfl rfl (by simp only [Translate3D_BoundingBox]; ring))

/-- C14: `CenterWith2D`, `CenterWith3D` and `Center2DWith3D` centre `s2` on `s1`: the
centre of the bounding box of the result is the centre of the bounding box of
`s1` (for `Center2DWith3D`, its X and Y components), and the size of the
bounding box of the result is the size of the bounding box of `s2`. -/
theorem CenterWith_centres :
    (∀ s1 s2 : SDF2,
      (CenterWith2D s1 s2).BoundingBox.Center = s1.BoundingBox.Center ∧
      (CenterWith2D s1 s2).BoundingBox.Size = s2.BoundingBox.Size) ∧
    (∀ (s1 : SDF3) (s2 : SDF2),
      (Center2DWith3D s1 s2).BoundingBox.Center =
        ⟨s1.BoundingBox.Center.X, s1.BoundingBox.Center.Y⟩ ∧
      (Center2DWith3D s1 s2).BoundingBox.Size = s2.BoundingBox.Size) ∧
    (∀ s1 s2 : SDF3,
      (CenterWith3D s1 s2).BoundingBox.Center = s1.BoundingBox.Center ∧
      (CenterWith3D s1 s2).BoundingBox.Size = s2.BoundingBox.Size) := by
  refine ⟨?_, ?_, ?_⟩
  · intro s1 s2
    simp only [CenterWith2D, Translate2D_BoundingBox, Box2.Center, Box2.Size, V2.Sub,
      V2.mk.injEq]
    refine ⟨⟨?_, ?_⟩, ⟨?_, ?_⟩⟩ <;> ring
  · intro s1 s2
    simp only [Center2DWith3D, Translate2D_BoundingBox, Box2.Center, Box2.Size, Box3.Center,
      Box3.Size, V2.Sub, V3.Sub, V2.mk.injEq]
    refine ⟨⟨?_, ?_⟩, ⟨?_, ?_⟩⟩ <;> ring
  · intro s1 s2
    simp only [CenterWith3D, Translate3D_BoundingBox, Box3.Center, Box3.Size, V3.Sub,
      V3.mk.injEq]
    refine ⟨⟨?_, ?_, ?_⟩, ⟨?_, ?_, ?_⟩⟩ <;> ring

/-- C16: `SetOnXYPlane` sets a field on the XY plane: the bounding box of the
result has `Min.Z = 0` and `Max.Z = bb.Max.Z - bb.Min.Z`, its X and Y extents
are those of `bb`, and the result at `(x, y, z)` is the field at
`(x, y, z + bb.Min.Z)`. -/
theorem SetOnXYPlane_sets_on_plane (s : SDF3) :
    (SetOnXYPlane s).BoundingBox.Min.Z = 0 ∧
    (SetOnXYPlane s).BoundingBox.Max.Z = s.BoundingBox.Max.Z - s.BoundingBox.Min.Z ∧
    (SetOnXYPlane s).BoundingBox.Min.X = s.BoundingBox.Min.X ∧
    (SetOnXYPlane s).BoundingBox.Max.X = s.BoundingBox.Max.X ∧
    (SetOnXYPlane s).BoundingBox.Min.Y = s.BoundingBox.Min.Y ∧
    (SetOnXYPlane s).BoundingBox.Max.Y = s.BoundingBox.Max.Y ∧
    (∀ x y z : ℝ,
      (SetOnXYPlane s).Evaluate ⟨x, y, z⟩ = s.Evaluate ⟨x, y, z + s.BoundingBox.Min.Z⟩) := by
  simp only [SetOnXYPlane, Translate3D_BoundingBox, Translate3D_Evaluate, add_zero, sub_zero,
    sub_neg_eq_add, implies_true, and_true]
  exact ⟨by ring, by ring⟩

/-- C15: `AbutWith2D` and `AbutWith3D` translate only one coordinate: whatever they
return is `s2` translated by an offset with at most one non-zero component, the
bounding box of the result has the `Min` and `Max` of the bounding box of `s2`
on every axis other than the axis of the given side, and the same size on every
axis. -/
theorem Abut_translates_one_coordinate :
    (∀ (s1 s2 : SDF2) (side : Side) (R : SDF2), AbutWith2D s1 s2 side = some R →
      ∃ x y : ℝ, R = Translate2D s2 x y ∧ (x = 0 ∨ y = 0) ∧
        ((side = Left ∨ side = Right) →
          R.BoundingBox.Min.Y = s2.BoundingBox.Min.Y ∧
          R.BoundingBox.Max.Y = s2.BoundingBox.Max.Y) ∧
        ((side = Bottom ∨ side = Top) →
          R.BoundingBox.Min.X = s2.BoundingBox.Min.X ∧
          R.BoundingBox.Max.X = s2.BoundingBox.Max.X) ∧
        R.BoundingBox.Size = s2.BoundingBox.Size) ∧
    (∀ (s1 s2 : SDF3) (side : Side) (R : SDF3), AbutWith3D s1 s2 side = some R →
      ∃ x y z : ℝ, R = Translate3D s2 x y z ∧
        ((x = 0 ∧ y = 0) ∨ (x = 0 ∧ z = 0) ∨ (y = 0 ∧ z = 0)) ∧
        ((side = Left ∨ side = Right) →
          R.BoundingBox.Min.Y = s2.BoundingBox.Min.Y ∧
          R.BoundingBox.Max.Y = s2.BoundingBox.Max.Y ∧
          R.BoundingBox.Min.Z = s2.BoundingBox.Min.Z ∧
          R.BoundingBox.Max.Z = s2.BoundingBox.Max.Z) ∧
        ((side = Front ∨ side = Back) →
          R.BoundingBox.Min.X = s2.BoundingBox.Min.X ∧
          R.BoundingBox.Max.X = s2.BoundingBox.Max.X ∧
          R.BoundingBox.Min.Z = s2.BoundingBox.Min.Z ∧
          R.BoundingBox.Max.Z = s2.BoundingBox.Max.Z) ∧
        ((side = Bottom ∨ side = Top) →
          R.BoundingBox.Min.X = s2.BoundingBox.Min.X ∧
          R.BoundingBox.Max.X = s2.BoundingBox.Max.X ∧
          R.BoundingBox.Min.Y = s2.BoundingBox.Min.Y ∧
          R.BoundingBox.Max.Y = s2.BoundingBox.Max.Y) ∧
        R.BoundingBox.Size = s2.BoundingBox.Size) := by
  constructor
  · intro s1 s2 side R h
    simp only [AbutWith2D] at h
    split_ifs at h with h1 h2 h3 h4
    · obtain rfl := Option.some.inj h
      subst h1
      refine ⟨_, _, rfl, Or.inr rfl, ?_, ?_, ?_⟩ <;>
        (simp [Translate2D_BoundingBox, Box2.Size, V2.Sub, Left, Right, Top, Bottom] <;> ring)
    · obtain rfl := Option.some.inj h
      subst h2
      refine ⟨_, _, rfl, Or.inr rfl, ?_, ?_, ?_⟩ <;>
        (simp [Translate2D_BoundingBox, Box2.Size, V2.Sub, Left, Right, Top, Bottom] <;> ring)
    · obtain rfl := Option.some.inj h
      subst h3
      refine ⟨_, _, rfl, Or.inl rfl, ?_, ?_, ?_⟩ <;>
        (simp [Translate2D_BoundingBox, Box2.Size, V2.Sub, Left, Right, Top, Bottom] <;> ring)
    · obtain rfl := Option.some.inj h
      subst h4
      refine ⟨_, _, rfl, Or.inl rfl, ?_, ?_, ?_⟩ <;>
        (simp [Translate2D_BoundingBox, Box2.Size, V2.Sub, Left, Right, Top, Bottom] <;> ring)
  · intro s1 s2 side R h
    simp only [AbutWith3D] at h
    split_ifs at h with h1 h2 h3 h4 h5 h6
    · obtain rfl := Option.some.inj h
      subst h1
      refine ⟨_, _, _, rfl, Or.inr (Or.inr ⟨rfl, rfl⟩), ?_, ?_, ?_, ?_⟩ <;>
        (simp [Translate3D_BoundingBox, Box3.Size, V3.Sub, Left, Right, Top, Bottom, Front, Back]
          <;> ring)
    · obtain rfl := Option.some.inj h
      subst h2
      refine ⟨_, _, _, rfl, Or.inr (Or.inr ⟨rfl, rfl⟩), ?_, ?_, ?_, ?_⟩ <;>
        (simp [Translate3D_BoundingBox, Box3.Size, V3.Sub, Left, Right, Top, Bottom, Front, Back]
          <;> ring)
    · obtain rfl := Option.some.inj h
      subst h3
      refine ⟨_, _, _, rfl, Or.inr (Or.inl ⟨rfl, rfl⟩), ?_, ?_, ?_, ?_⟩ <;>
        (simp [Translate3D_BoundingBox, Box3.Size, V3.Sub, Left, Right, Top, Bottom, Front, Back]
          <;> ring)
    · obtain rfl := Option.some.inj h
      subst h4
      refine ⟨_, _, _, rfl, Or.inr (Or.inl ⟨rfl, rfl⟩), ?_, ?_, ?_, ?_⟩ <;>
        (simp [Translate3D_BoundingBox, Box3.Size, V3.Sub, Left, Right, Top, Bottom, Front, Back]
          <;> ring)
    · obtain rfl := Option.some.inj h
      subst h5
      refine ⟨_, _, _, rfl, Or.inl ⟨rfl, rfl⟩, ?_, ?_, ?_, ?_⟩ <;>
        (simp [Translate3D_BoundingBox, Box3.Size, V3.Sub, Left, Right, Top, Bottom, Front, Back]
          <;> ring)
    · obtain rfl := Option.some.inj h
      subst h6
      refine ⟨_, _, _, rfl, Or.inl ⟨rfl, rfl⟩, ?_, ?_, ?_, ?_⟩ <;>
        (simp [Translate3D_BoundingBox, Box3.Size, V3.Sub, Left, Right, Top, Bottom, Front, Back]
          <;> ring)

/-- C15 at concrete inputs: the example square abutted to itself on the side
`Bottom` keeps its X range `[-1, 1]`, and the example cylinder abutted to itself
on the side `Left` keeps its Y and Z ranges `[-1, 1]`. -/
theorem Abut_translates_one_coordinate_witness :
    (∃ R, AbutWith2D exampleSquare exampleSquare Bottom = some R ∧
      R.BoundingBox.Min.X = -1 ∧ R.BoundingBox.Max.X = 1) ∧
    (∃ R, AbutWith3D exampleCylinder exampleCylinder Left = some R ∧
      R.BoundingBox.Min.Y = -1 ∧ R.BoundingBox.Max.Y = 1 ∧
      R.BoundingBox.Min.Z = -1 ∧ R.BoundingBox.Max.Z = 1) := by
  constructor
  · obtain ⟨_, _, _, _, _, hX, _⟩ := Abut_translates_one_coordinate.1 exampleSquare exampleSquare
      Bottom _ (AbutWith2D_Bottom exampleSquare exampleSquare)
    refine ⟨_, AbutWith2D_Bottom exampleSquare exampleSquare, ?_, ?_⟩
    · rw [(hX (Or.inl rfl)).1, exampleSquare_BoundingBox]
    · rw [(hX (Or.inl rfl)).2, exampleSquare_BoundingBox]
  · obtain ⟨_, _, _, _, _, hYZ, _⟩ := Abut_translates_one_coordinate.2 exampleCylinder
      exampleCylinder Left _ (AbutWith3D_Left exampleCylinder exampleCylinder)
    refine ⟨_, AbutWith3D_Left exampleCylinder exampleCylinder, ?_, ?_, ?_, ?_⟩
    · rw [(hYZ (Or.inl rfl)).1, exampleCylinder_BoundingBox]
    · rw [(hYZ (Or.inl rfl)).2.1, exampleCylinder_BoundingBox]
    · rw [(hYZ (Or.inl rfl)).2.2.1, exampleCylinder_BoundingBox]
    · rw [(hYZ (Or.inl rfl)).2.2.2, exampleCylinder_BoundingBox]

/-- C17: ordering matters when rounded blends are used.  For the example
rectangle wrapped with `r = 1`, `t = 1` and both rounding radii `2`, the point
`(0, 2, 5)` has planar sample `d = 0`, outer cylinder distance `o = 0` and
negated inner cylinder distance `i = -1`; the order of `Evaluate`,
`innerMax (outerMax d o) i`, gives `17/32` (the value of `Evaluate` there), and
the other order, `outerMax (innerMax d i) o`, gives `289/512`.  With both blends
hard the two orders agree for all `d`, `o`, `i`. -/
theorem blend_order_matters :
    (∃ w, WrapAroundCylinder exampleRectangle 1 1 2 2 = some w ∧
      exampleRectangle.Evaluate (w.p2 ⟨0, 2, 5⟩) = 0 ∧
      w.outerCylinder.Evaluate ⟨0, 2, 5⟩ = 0 ∧
      -(w.innerCylinder.Evaluate ⟨0, 2, 5⟩) = -1 ∧
      w.innerMax (w.outerMax 0 0) (-1) = 17 / 32 ∧
      w.outerMax (w.innerMax 0 (-1)) 0 = 289 / 512 ∧
      w.Evaluate ⟨0, 2, 5⟩ = 17 / 32 ∧
      w.innerMax (w.outerMax 0 0) (-1) ≠ w.outerMax (w.innerMax 0 (-1)) 0) ∧
    (∀ (F : SDF2) (r t : ℝ) (w : WrapSylinderSDF), WrapAroundCylinder F r t 0 0 = some w →
      ∀ d o i : ℝ, w.innerMax (w.outerMax d o) i = w.outerMax (w.innerMax d i) o) := by
  constructor
  · obtain ⟨w, hw, hspec⟩ := WrapAroundCylinder_eq_some exampleRectangle 1 1 2 2
      one_pos (by norm_num) (by rw [exampleRectangle_BoundingBox]; norm_num)
    have hpi := Real.pi_pos
    have him : w.innerMax = PolyMax 2 := by
      rw [hspec.2.2.2.2.2.1, if_neg (by norm_num)]
    have hom : w.outerMax = PolyMax 2 := by
      rw [hspec.2.2.2.2.2.2, if_neg (by norm_num)]
    have hp : w.p2 ⟨0, 2, 5⟩ = ⟨Real.pi, 5⟩ := by
      simp only [WrapSylinderSDF.p2, WrapSylinderSDF.angle, Atan2_pos_zero 2 (by norm_num),
        hspec.2.1]
      congr 1
      field_simp
    have hd : exampleRectangle.Evaluate (w.p2 ⟨0, 2, 5⟩) = 0 := by
      rw [hp, exampleRectangle_Evaluate, sdfBox2d_eq_max]
      · norm_num [abs_of_pos Real.pi_pos]
      · norm_num [abs_of_pos Real.pi_pos]
    have ho : w.outerCylinder.Evaluate ⟨0, 2, 5⟩ = 0 := by
      rw [hspec.2.2.1, exampleRectangle_BoundingBox, sdfBox2d_eq_max]
      · simp only [sqrt_zero_add_sq]
        norm_num [abs_of_pos]
      · simp only [sqrt_zero_add_sq]
        norm_num [abs_of_pos]
    have hi : w.innerCylinder.Evaluate ⟨0, 2, 5⟩ = 1 := by
      rw [hspec.2.2.2.1, exampleRectangle_BoundingBox, sdfBox2d_eq_max]
      · simp only [sqrt_zero_add_sq]
        norm_num [abs_of_pos]
      · simp only [sqrt_zero_add_sq]
        norm_num [abs_of_pos]
    have hA : PolyMax 2 (PolyMax 2 0 0) (-1) = 17 / 32 := by
      simp only [PolyMax, Clamp, Mix]
      norm_num
    have hB : PolyMax 2 (PolyMax 2 0 (-1)) 0 = 289 / 512 := by
      simp only [PolyMax, Clamp, Mix]
      norm_num
    refine ⟨w, hw, hd, ho, by rw [hi], ?_, ?_, ?_, ?_⟩
    · rw [him, hom, hA]
    · rw [him, hom, hB]
    · have hd2 : w.SDF2.Evaluate (w.p2 ⟨0, 2, 5⟩) = 0 := by
        rw [hspec.1]
        exact hd
      simp only [WrapSylinderSDF.Evaluate, hd2, ho, hi, him, hom, hA]
    · rw [him, hom, hA, hB]
      norm_num
  · intro F r t w hw d o i
    obtain ⟨_, _, _, hspec⟩ := WrapAroundCylinder_some_inv F r t 0 0 w hw
    rw [hspec.2.2.2.2.2.1, hspec.2.2.2.2.2.2]
    simp only [if_true]
    rw [max_assoc, max_comm o i, ← max_assoc]

/-- C17 at a concrete input: the example rectangle wrapped with hard blends, at
the values `d = 1`, `o = 2`, `i = 3`. -/
theorem blend_order_matters_witness :
    ∃ w, WrapAroundCylinder exampleRectangle 1 1 0 0 = some w ∧
      w.innerMax (w.outerMax 1 2) 3 = w.outerMax (w.innerMax 1 3) 2 := by
  obtain ⟨w, hw, _⟩ := WrapAroundCylinder_eq_some exampleRectangle 1 1 0 0
    one_pos (by norm_num) (by rw [exampleRectangle_BoundingBox]; norm_num)
  exact ⟨w, hw, blend_order_matters.2 exampleRectangle 1 1 w hw 1 2 3⟩

/-- C18: `Evaluate` is total on every wrap that `WrapAroundCylinder` returns: the
divisor `π` of the angular remap is not zero and a rounded blend is only
selected with a rounding radius that is not zero, so no step of `Evaluate` is
undefined at any point.  At a point `(0, 0, z)` of the Z axis the two-argument
arctangent is `0`, the remapped angle is `π/2` and the planar field is sampled
at `(width/2, z)`. -/
theorem Evaluate_total_on_Z_axis (F : SDF2) (r t ri ro : ℝ) (w : WrapSylinderSDF)
    (hw : WrapAroundCylinder F r t ri ro = some w) :
    Real.pi ≠ 0 ∧
    (w.innerMax = max ∨ (ri ≠ 0 ∧ w.innerMax = PolyMax ri)) ∧
    (w.outerMax = max ∨ (ro ≠ 0 ∧ w.outerMax = PolyMax ro)) ∧
    (∀ p : V3, ∃ v : ℝ, w.Evaluate p = v) ∧
    Atan2 0 0 = 0 ∧
    (∀ z : ℝ, WrapSylinderSDF.angle ⟨0, 0, z⟩ = Real.pi / 2 ∧
      w.p2 ⟨0, 0, z⟩ = ⟨w.width / 2, z⟩ ∧
      w.Evaluate ⟨0, 0, z⟩ =
        w.innerMax (w.outerMax (F.Evaluate ⟨w.width / 2, z⟩) (w.outerCylinder.Evaluate ⟨0, 0, z⟩))
          (-(w.innerCylinder.Evaluate ⟨0, 0, z⟩))) := by
  obtain ⟨_, _, _, hspec⟩ := WrapAroundCylinder_some_inv F r t ri ro w hw
  have hpi := Real.pi_pos
  have ha : ∀ z : ℝ, WrapSylinderSDF.angle ⟨0, 0, z⟩ = Real.pi / 2 := by
    intro z
    simp only [WrapSylinderSDF.angle, Atan2_zero_zero, zero_add]
  have hp : ∀ z : ℝ, w.p2 ⟨0, 0, z⟩ = ⟨w.width / 2, z⟩ := by
    intro z
    simp only [WrapSylinderSDF.p2, ha z]
    congr 1
    field_simp
    ring
  refine ⟨hpi.ne.symm, ?_, ?_, fun p => ⟨_, rfl⟩, Atan2_zero_zero, fun z => ⟨ha z, hp z, ?_⟩⟩
  · rw [hspec.2.2.2.2.2.1]
    by_cases h : ri = 0
    · exact Or.inl (if_pos h)
    · exact Or.inr ⟨h, if_neg h⟩
  · rw [hspec.2.2.2.2.2.2]
    by_cases h : ro = 0
    · exact Or.inl (if_pos h)
    · exact Or.inr ⟨h, if_neg h⟩
  · simp only [WrapSylinderSDF.Evaluate, hp z, hspec.1]

/-- C18 at a concrete input: the example rectangle wrapped with `r = 1`, `t = 1`,
at the point `(0, 0, 5)` of the Z axis, samples the planar field at `(π/2, 5)`. -/
theorem Evaluate_total_on_Z_axis_witness :
    ∃ w, WrapAroundCylinder exampleRectangle 1 1 0 0 = some w ∧
      w.p2 ⟨0, 0, 5⟩ = ⟨Real.pi / 2, 5⟩ := by
  obtain ⟨w, hw, hspec⟩ := WrapAroundCylinder_eq_some exampleRectangle 1 1 0 0
    one_pos (by norm_num) (by rw [exampleRectangle_BoundingBox]; norm_num)
  refine ⟨w, hw, ?_⟩
  rw [((Evaluate_total_on_Z_axis exampleRectangle 1 1 0 0 w hw).2.2.2.2.2 5).2.1, hspec.2.1,
    mul_one]

end Claims

end

end Shadoof
